import Mathlib

/-!
# SceneManager: texture registry, material table, transform builder, scene binder

A shallow embedding of `Source/SceneManager.cpp`.

* The arithmetic of `float` is a parameter `α` with `0`, `1`, `+`, `-` and `*` and no laws:
  the transform builder performs GLM's operations in GLM's order. `Binary32` interprets them
  as IEEE-754 single precision with round to nearest, ties to even; the scene constants of
  `RenderScene` are written in `ℚ`.
* Calls into external libraries (the shader manager, OpenGL, stb_image, the mesh library) are
  recorded, in program order, in the `trace` field of the state.
* What the external world answers (trigonometry, image decoding, generated texture names, the
  contents of an uninitialised local) is read from a `World` record.
* A write past the end of the texture array and a dereference of a NULL shader manager are
  undefined behaviour in C++; they are reported as a `Fault`.
-/

namespace SceneManager

/-! ## Data model -/

/-- The type `glm::vec2`. -/
structure Vec2 (α : Type) where
  x : α
  y : α

/-- The type `glm::vec3`. -/
structure Vec3 (α : Type) where
  x : α
  y : α
  z : α

/-- The type `glm::vec4`, with the colour accessors r, g, b, a. -/
structure Vec4 (α : Type) where
  r : α
  g : α
  b : α
  a : α

/-- The type `glm::mat4`; entry `M i j` is row `i`, column `j` (GLM writes it `M[j][i]`). -/
abbrev Mat4 (α : Type) := Matrix (Fin 4) (Fin 4) α

/-- One entry of the texture array: a GL texture name (a `GLuint`) and its tag. -/
structure TEXTURE_INFO where
  ID : Nat
  tag : String

/-- A material preset. -/
structure OBJECT_MATERIAL (α : Type) where
  ambientColor : Vec3 α
  ambientStrength : α
  diffuseColor : Vec3 α
  specularColor : Vec3 α
  shininess : α
  tag : String

/-- What `stbi_load` reports about a decoded image file. -/
structure Image where
  width : Int
  height : Int
  colorChannels : Int

/-- A call into an external library, with its arguments. Console output is not recorded. -/
inductive Event (α : Type) where
  | setMat4Value (name : String) (value : Mat4 α)
  | setVec4Value (name : String) (value : Vec4 α)
  | setVec3Value (name : String) (value : Vec3 α)
  | setVec2Value (name : String) (value : Vec2 α)
  | setFloatValue (name : String) (value : α)
  | setIntValue (name : String) (value : Int)
  | setBoolValue (name : String) (value : Bool)
  | setSampler2DValue (name : String) (value : Int)
  | stbi_set_flip_vertically_on_load (flag : Bool)
  | stbi_load (filename : String)
  | stbi_image_free (image : Image)
  | glGenTextures (textureID : Nat)
  | glBindTexture (textureID : Nat)
  | glTexParameteri (pname : String) (param : String)
  | glTexImage2D (internalformat : String) (width : Int) (height : Int) (format : String)
  | glGenerateMipmap
  | glActiveTexture (unit : Nat)
  | glDeleteTextures (textureID : Nat)
  | LoadPlaneMesh
  | LoadBoxMesh
  | LoadTaperedCylinderMesh
  | LoadPrismMesh
  | LoadCylinderMesh
  | DrawPlaneMesh
  | DrawBoxMesh
  | DrawTaperedCylinderMesh
  | DrawPrismMesh
  | DrawCylinderMesh

/-- Undefined behaviour the code can run into. -/
inductive Fault where
  | outOfBoundsWrite (index : Nat)
  | nullShaderManager
  deriving DecidableEq

/-- Answers of the external world: `glm::radians`, `cos` and `sin`; the result of `stbi_load`
on a path; the name `glGenTextures` stores, and the contents of a local declared without an
initialiser, both allowed to depend on everything that happened before. -/
structure World (α : Type) where
  radians : α → α
  cos : α → α
  sin : α → α
  stbi_load : String → Option Image
  glGenTextures : List (Event α) → Nat
  uninitialized : List (Event α) → OBJECT_MATERIAL α

/-- Modelled from the spec: the texture array of the class declaration (`SceneManager.h`, not
among the sources) has 16 entries, "max 16 entries (hardware texture-unit limit)"; the comments
of `BindGLTextures` and `LoadSceneTextures` say the same. -/
def textureSlots : Nat := 16

/-- The members of the class, and the trace of external calls made so far.
`m_pShaderManager` is `true` exactly when the pointer is not NULL; `m_textureIDs i` is the
array entry at index `i`; `m_basicMeshes` is never NULL and has no state of its own here. -/
structure State (α : Type) where
  m_pShaderManager : Bool
  m_textureIDs : Nat → TEXTURE_INFO
  m_loadedTextures : Nat
  m_objectMaterials : List (OBJECT_MATERIAL α)
  trace : List (Event α)

/-- Modelled from the spec: the state after construction with an empty registry (the initial
value of the texture count is given in `SceneManager.h`, not among the sources). -/
def State.new (α : Type) (pShaderManager : Bool) : State α :=
  { m_pShaderManager := pShaderManager
    m_textureIDs := fun _ => ⟨0, ""⟩
    m_loadedTextures := 0
    m_objectMaterials := []
    trace := [] }

/-- Record one external call. -/
def State.emit {α : Type} (s : State α) (e : Event α) : State α :=
  { s with trace := s.trace ++ [e] }

/-- The names of the uniforms, from the anonymous namespace at the top of the file. -/
def g_ModelName : String := "model"
def g_ColorValueName : String := "objectColor"
def g_TextureValueName : String := "objectTexture"
def g_UseTextureName : String := "bUseTexture"
def g_UseLightingName : String := "bUseLighting"

/-- The conversion of a `GLuint` to `int` (two's complement, 32 bits). -/
def GLuint_to_int (u : Nat) : Int :=
  if u % 2 ^ 32 < 2 ^ 31 then ((u % 2 ^ 32 : Nat) : Int) else ((u % 2 ^ 32 : Nat) : Int) - 2 ^ 32

/-! ## IEEE-754 single precision -/

/-- The values of the C++ type `float` (IEEE-754 binary32): the finite values `m * 2 ^ e`, kept
with `m` odd (zero is `finite 0 0`), the two infinities and NaN. The two zeros +0 and -0 are
one value here; the code modelled never divides. -/
inductive Binary32 where
  | finite (m : Int) (e : Int)
  | inf (negative : Bool)
  | nan
  deriving DecidableEq

namespace Binary32

/-- The number of binary digits of `n`, counted in at most `fuel` steps. -/
def bitLength.go : Nat → Nat → Nat
  | 0, _ => 0
  | fuel + 1, n => if n = 0 then 0 else bitLength.go fuel (n / 2) + 1

/-- The number of binary digits of `n` (0 for 0). -/
def bitLength (n : Nat) : Nat := bitLength.go n n

/-- The pair (m, e) with the trailing zero digits of `m` moved into the exponent. -/
def canonical.go : Nat → Nat → Int → Nat × Int
  | 0, m, e => (m, e)
  | fuel + 1, m, e => if m ≠ 0 ∧ m % 2 = 0 then canonical.go fuel (m / 2) (e + 1) else (m, e)

/-- The quotient `m / 2 ^ k` rounded to the nearest integer, ties to the even one. -/
def halfEven (m k : Nat) : Nat :=
  let n := m / 2 ^ k
  let rest := m % 2 ^ k
  let half := 2 ^ (k - 1)
  if rest < half then n
  else if half < rest then n + 1
  else if n % 2 = 0 then n else n + 1

/-- The binary32 value nearest to `± m * 2 ^ e` (ties to even): 24 significant digits, the
last digit not below `2 ^ (-149)` (gradual underflow), infinity from `2 ^ 128` on. -/
def round (negative : Bool) (m : Nat) (e : Int) : Binary32 :=
  if m = 0 then .finite 0 0
  else
    let top : Int := (bitLength m : Int) - 1 + e
    let q : Int := max (top - 23) (-149)
    let n : Nat := if q ≤ e then m * 2 ^ (e - q).toNat else halfEven m (q - e).toNat
    if 104 < q ∨ (q = 104 ∧ 2 ^ 24 ≤ n) then .inf negative
    else
      let c := canonical.go n n q
      if c.1 = 0 then .finite 0 0
      else .finite (if negative then -(c.1 : Int) else (c.1 : Int)) c.2

/-- The binary32 value nearest to `z * 2 ^ e`. -/
def ofDyadic (z : Int) (e : Int) : Binary32 := round (decide (z < 0)) z.natAbs e

/-- The conversion of an integer to `float`. -/
def ofInt (z : Int) : Binary32 := ofDyadic z 0

/-- The sum of two floats: the exact sum, rounded. -/
def add : Binary32 → Binary32 → Binary32
  | .finite ma ea, .finite mb eb =>
    ofDyadic (ma * 2 ^ (ea - min ea eb).toNat + mb * 2 ^ (eb - min ea eb).toNat) (min ea eb)
  | .nan, _ => .nan
  | _, .nan => .nan
  | .inf a, .inf b => if a = b then .inf a else .nan
  | .inf a, .finite _ _ => .inf a
  | .finite _ _, .inf b => .inf b

/-- The negation of a float. -/
def neg : Binary32 → Binary32
  | .finite m e => .finite (-m) e
  | .inf a => .inf (!a)
  | .nan => .nan

/-- The product of two floats: the exact product, rounded. -/
def mul : Binary32 → Binary32 → Binary32
  | .finite ma ea, .finite mb eb => ofDyadic (ma * mb) (ea + eb)
  | .nan, _ => .nan
  | _, .nan => .nan
  | .inf a, .inf b => .inf (a != b)
  | .inf a, .finite m _ => if m = 0 then .nan else .inf (a != decide (m < 0))
  | .finite m _, .inf b => if m = 0 then .nan else .inf (decide (m < 0) != b)

instance : OfNat Binary32 n := ⟨ofInt n⟩

instance : Zero Binary32 := ⟨ofInt 0⟩

instance : One Binary32 := ⟨ofInt 1⟩

instance : Add Binary32 := ⟨add⟩

instance : Neg Binary32 := ⟨neg⟩

instance : Sub Binary32 := ⟨fun a b => add a (neg b)⟩

instance : Mul Binary32 := ⟨mul⟩

end Binary32

/-! ## GLM (external library) -/

namespace glm

variable {α : Type} [Zero α] [One α] [Add α] [Sub α] [Mul α]

/-- The matrix `mat4(1)`: ones on the diagonal, zeros elsewhere. -/
def identity : Mat4 α :=
  fun i j => if i = j then 1 else 0

/-- The product `A * B` of two `mat4`: GLM computes column `j` of the result as
`A[0] * B[j][0] + A[1] * B[j][1] + A[2] * B[j][2] + A[3] * B[j][3]`, adding left to right. -/
def mul (A B : Mat4 α) : Mat4 α :=
  fun i j => A i 0 * B 0 j + A i 1 * B 1 j + A i 2 * B 2 j + A i 3 * B 3 j

/-- The first three components of the product `M * vec4(p, 1)`, which GLM computes as
`(M[0] * x + M[1] * y) + (M[2] * z + M[3] * w)`. -/
def transformPoint (M : Mat4 α) (p : Vec3 α) : Vec3 α :=
  ⟨(M 0 0 * p.x + M 0 1 * p.y) + (M 0 2 * p.z + M 0 3 * 1),
   (M 1 0 * p.x + M 1 1 * p.y) + (M 1 2 * p.z + M 1 3 * 1),
   (M 2 0 * p.x + M 2 1 * p.y) + (M 2 2 * p.z + M 2 3 * 1)⟩

/-- The matrix `glm::scale(v)`, which is `scale(mat4(1), v)`: with `m = mat4(1)` the columns
are `m[0] * v.x`, `m[1] * v.y`, `m[2] * v.z` and `m[3]`. -/
def scale (v : Vec3 α) : Mat4 α :=
  fun i j =>
    match j with
    | 0 => identity i 0 * v.x
    | 1 => identity i 1 * v.y
    | 2 => identity i 2 * v.z
    | 3 => identity i 3

/-- The matrix `glm::translate(v)`, which is `translate(mat4(1), v)`: with `m = mat4(1)` the
first three columns are those of `m` and the last is
`m[0] * v.x + m[1] * v.y + m[2] * v.z + m[3]`. -/
def translate (v : Vec3 α) : Mat4 α :=
  fun i j =>
    match j with
    | 0 => identity i 0
    | 1 => identity i 1
    | 2 => identity i 2
    | 3 => identity i 0 * v.x + identity i 1 * v.y + identity i 2 * v.z + identity i 3

/-- The matrix `glm::rotate(angle, axis)`, which is `rotate(mat4(1), angle, axis)`, for an
axis of length one (GLM normalises the axis first, which leaves the three coordinate axes
used here as they are). With `c = cos angle`, `s = sin angle` and `temp = (1 - c) * axis`
GLM fills the nine entries `Rotate[col][row]`, here `r col row`; with `m = mat4(1)` column
`j < 3` of the result is `m[0] * Rotate[j][0] + m[1] * Rotate[j][1] + m[2] * Rotate[j][2]`
and the last column is `m[3]`. -/
def rotate (W : World α) (angle : α) (axis : Vec3 α) : Mat4 α :=
  let c := W.cos angle
  let s := W.sin angle
  let temp : Vec3 α := ⟨(1 - c) * axis.x, (1 - c) * axis.y, (1 - c) * axis.z⟩
  let r00 := c + temp.x * axis.x
  let r01 := temp.x * axis.y + s * axis.z
  let r02 := temp.x * axis.z - s * axis.y
  let r10 := temp.y * axis.x - s * axis.z
  let r11 := c + temp.y * axis.y
  let r12 := temp.y * axis.z + s * axis.x
  let r20 := temp.z * axis.x + s * axis.y
  let r21 := temp.z * axis.y - s * axis.x
  let r22 := c + temp.z * axis.z
  fun i j =>
    match j with
    | 0 => identity i 0 * r00 + identity i 1 * r01 + identity i 2 * r02
    | 1 => identity i 0 * r10 + identity i 1 * r11 + identity i 2 * r12
    | 2 => identity i 0 * r20 + identity i 1 * r21 + identity i 2 * r22
    | 3 => identity i 3

end glm

/-! ## Texture registry -/

section Registry

variable {α : Type}

/-- The tail of `CreateGLTexture` once the pixels are uploaded: mipmaps, release of the decoded
image, unbinding, and registration in the next slot. -/
def CreateGLTexture.register (s : State α) (image : Image) (textureID : Nat) (tag : String) :
    Except Fault (Bool × State α) :=
  let s := s.emit .glGenerateMipmap
  let s := s.emit (.stbi_image_free image)
  let s := s.emit (.glBindTexture 0)
  if s.m_loadedTextures < textureSlots then
    .ok (true,
      { s with
        m_textureIDs := Function.update s.m_textureIDs s.m_loadedTextures ⟨textureID, tag⟩
        m_loadedTextures := s.m_loadedTextures + 1 })
  else
    .error (.outOfBoundsWrite s.m_loadedTextures)

/-- The method `CreateGLTexture(filename, tag)`. -/
def CreateGLTexture (W : World α) (s : State α) (filename : String) (tag : String) :
    Except Fault (Bool × State α) :=
  let s := s.emit (.stbi_set_flip_vertically_on_load true)
  let s := s.emit (.stbi_load filename)
  match W.stbi_load filename with
  | some image =>
    let textureID := W.glGenTextures s.trace
    let s := s.emit (.glGenTextures textureID)
    let s := s.emit (.glBindTexture textureID)
    let s := s.emit (.glTexParameteri "GL_TEXTURE_WRAP_S" "GL_REPEAT")
    let s := s.emit (.glTexParameteri "GL_TEXTURE_WRAP_T" "GL_REPEAT")
    let s := s.emit (.glTexParameteri "GL_TEXTURE_MIN_FILTER" "GL_LINEAR")
    let s := s.emit (.glTexParameteri "GL_TEXTURE_MAG_FILTER" "GL_LINEAR")
    if image.colorChannels = 3 then
      CreateGLTexture.register
        (s.emit (.glTexImage2D "GL_RGB8" image.width image.height "GL_RGB")) image textureID tag
    else if image.colorChannels = 4 then
      CreateGLTexture.register
        (s.emit (.glTexImage2D "GL_RGBA8" image.width image.height "GL_RGBA")) image textureID tag
    else
      .ok (false, s)
  | none => .ok (false, s)

/-- The loop of `BindGLTextures`: `n` iterations left, starting at index `i`. -/
def BindGLTextures.loop (s : State α) : Nat → Nat → State α
  | 0, _ => s
  | n + 1, i =>
    BindGLTextures.loop
      ((s.emit (.glActiveTexture i)).emit (.glBindTexture (s.m_textureIDs i).ID)) n (i + 1)

/-- The method `BindGLTextures()`. -/
def BindGLTextures (s : State α) : State α :=
  BindGLTextures.loop s s.m_loadedTextures 0

/-- The loop of `DestroyGLTextures`: `n` iterations left, starting at index `i`. -/
def DestroyGLTextures.loop (s : State α) : Nat → Nat → State α
  | 0, _ => s
  | n + 1, i =>
    DestroyGLTextures.loop (s.emit (.glDeleteTextures (s.m_textureIDs i).ID)) n (i + 1)

/-- The method `DestroyGLTextures()`. -/
def DestroyGLTextures (s : State α) : State α :=
  DestroyGLTextures.loop s s.m_loadedTextures 0

/-- The loop of `FindTextureID`: `n` entries left to look at, starting at `index`. -/
def FindTextureID.loop (ids : Nat → TEXTURE_INFO) (tag : String) : Nat → Nat → Int
  | 0, _ => -1
  | n + 1, index =>
    if (ids index).tag = tag then GLuint_to_int (ids index).ID
    else FindTextureID.loop ids tag n (index + 1)

/-- The method `FindTextureID(tag)`. -/
def FindTextureID (s : State α) (tag : String) : Int :=
  FindTextureID.loop s.m_textureIDs tag s.m_loadedTextures 0

/-- The loop of `FindTextureSlot`: `n` entries left to look at, starting at `index`. -/
def FindTextureSlot.loop (ids : Nat → TEXTURE_INFO) (tag : String) : Nat → Nat → Int
  | 0, _ => -1
  | n + 1, index =>
    if (ids index).tag = tag then (index : Int)
    else FindTextureSlot.loop ids tag n (index + 1)

/-- The method `FindTextureSlot(tag)`. -/
def FindTextureSlot (s : State α) (tag : String) : Int :=
  FindTextureSlot.loop s.m_textureIDs tag s.m_loadedTextures 0

end Registry

/-! ## Material table -/

section Materials

variable {α : Type}

/-- The loop of `FindMaterial` over the materials not yet looked at: the first one with the
tag has its five fields copied into `material` (its tag is not copied). -/
def FindMaterial.loop (tag : String) (material : OBJECT_MATERIAL α) :
    List (OBJECT_MATERIAL α) → OBJECT_MATERIAL α
  | [] => material
  | m :: rest =>
    if m.tag = tag then
      { material with
        ambientColor := m.ambientColor
        ambientStrength := m.ambientStrength
        diffuseColor := m.diffuseColor
        specularColor := m.specularColor
        shininess := m.shininess }
    else FindMaterial.loop tag material rest

/-- The method `FindMaterial(tag, material)`: the returned flag and the contents of the
reference parameter `material` after the call. -/
def FindMaterial (s : State α) (tag : String) (material : OBJECT_MATERIAL α) :
    Bool × OBJECT_MATERIAL α :=
  if s.m_objectMaterials.length = 0 then (false, material)
  else (true, FindMaterial.loop tag material s.m_objectMaterials)

/-- The method `SetShaderMaterial(materialTag)`; the shader manager is dereferenced without a
NULL check. -/
def SetShaderMaterial (W : World α) (s : State α) (materialTag : String) :
    Except Fault (State α) :=
  if s.m_objectMaterials.length > 0 then
    let r := FindMaterial s materialTag (W.uninitialized s.trace)
    let material := r.2
    if r.1 = true then
      if s.m_pShaderManager then
        let s := s.emit (.setVec3Value "material.ambientColor" material.ambientColor)
        let s := s.emit (.setFloatValue "material.ambientStrength" material.ambientStrength)
        let s := s.emit (.setVec3Value "material.diffuseColor" material.diffuseColor)
        let s := s.emit (.setVec3Value "material.specularColor" material.specularColor)
        let s := s.emit (.setFloatValue "material.shininess" material.shininess)
        .ok s
      else .error .nullShaderManager
    else .ok s
  else .ok s

/-- The method `DefineObjectMaterials()`. -/
def DefineObjectMaterials (s : State ℚ) : State ℚ :=
  let cementMaterial : OBJECT_MATERIAL ℚ :=
    { ambientColor := ⟨0.2, 0.2, 0.2⟩
      ambientStrength := 0.2
      diffuseColor := ⟨0.5, 0.5, 0.5⟩
      specularColor := ⟨0.4, 0.4, 0.4⟩
      shininess := 0.5
      tag := "cement" }
  let s := { s with m_objectMaterials := s.m_objectMaterials ++ [cementMaterial] }
  let glassMaterial : OBJECT_MATERIAL ℚ :=
    { ambientColor := ⟨0.4, 0.4, 0.4⟩
      ambientStrength := 0.3
      diffuseColor := ⟨0.3, 0.3, 0.3⟩
      specularColor := ⟨0.6, 0.6, 0.6⟩
      shininess := 90.0
      tag := "glass" }
  let s := { s with m_objectMaterials := s.m_objectMaterials ++ [glassMaterial] }
  let clayMaterial : OBJECT_MATERIAL ℚ :=
    { ambientColor := ⟨0.2, 0.2, 0.3⟩
      ambientStrength := 0.3
      diffuseColor := ⟨0.4, 0.4, 0.5⟩
      specularColor := ⟨0.2, 0.2, 0.4⟩
      shininess := 0.5
      tag := "clay" }
  { s with m_objectMaterials := s.m_objectMaterials ++ [clayMaterial] }

end Materials

/-! ## Transform builder and scene binder -/

section Binder

variable {α : Type}

/-- The matrix `modelView` computed by `SetTransformations`:
`translation * rotationX * rotationY * rotationZ * scale`, multiplied left to right. -/
def SetTransformations.modelView [Zero α] [One α] [Add α] [Sub α] [Mul α] (W : World α)
    (scaleXYZ : Vec3 α) (XrotationDegrees YrotationDegrees ZrotationDegrees : α)
    (positionXYZ : Vec3 α) : Mat4 α :=
  let scale := glm.scale scaleXYZ
  let rotationX := glm.rotate W (W.radians XrotationDegrees) ⟨1, 0, 0⟩
  let rotationY := glm.rotate W (W.radians YrotationDegrees) ⟨0, 1, 0⟩
  let rotationZ := glm.rotate W (W.radians ZrotationDegrees) ⟨0, 0, 1⟩
  let translation := glm.translate positionXYZ
  glm.mul (glm.mul (glm.mul (glm.mul translation rotationX) rotationY) rotationZ) scale

/-- The method `SetTransformations(scaleXYZ, X, Y, Z, positionXYZ)`. -/
def SetTransformations [Zero α] [One α] [Add α] [Sub α] [Mul α] (W : World α) (s : State α)
    (scaleXYZ : Vec3 α) (XrotationDegrees YrotationDegrees ZrotationDegrees : α)
    (positionXYZ : Vec3 α) : State α :=
  let modelView := SetTransformations.modelView W scaleXYZ
    XrotationDegrees YrotationDegrees ZrotationDegrees positionXYZ
  if s.m_pShaderManager then s.emit (.setMat4Value g_ModelName modelView) else s

/-- The method `SetShaderColor(red, green, blue, alpha)`. -/
def SetShaderColor (s : State α) (redColorValue greenColorValue blueColorValue alphaValue : α) :
    State α :=
  let currentColor : Vec4 α := ⟨redColorValue, greenColorValue, blueColorValue, alphaValue⟩
  if s.m_pShaderManager then
    let s := s.emit (.setIntValue g_UseTextureName 0)
    s.emit (.setVec4Value g_ColorValueName currentColor)
  else s

/-- The method `SetShaderTexture(textureTag)`. -/
def SetShaderTexture (s : State α) (textureTag : String) : State α :=
  if s.m_pShaderManager then
    let s := s.emit (.setIntValue g_UseTextureName 1)
    let textureID := FindTextureSlot s textureTag
    s.emit (.setSampler2DValue g_TextureValueName textureID)
  else s

/-- The method `SetTextureUVScale(u, v)`. -/
def SetTextureUVScale (s : State α) (u v : α) : State α :=
  if s.m_pShaderManager then s.emit (.setVec2Value "UVscale" ⟨u, v⟩) else s

/-- The method `LoadSceneTextures()`; the results of the six loads are not looked at. -/
def LoadSceneTextures (W : World α) (s : State α) : Except Fault (State α) := do
  let r ← CreateGLTexture W s "../../Utilities/textures/static3.jpg" "static"
  let r ← CreateGLTexture W r.2 "../../Utilities/textures/blackxbox4.jpg" "xbox"
  let r ← CreateGLTexture W r.2 "../../Utilities/textures/monster2.jpg" "monster"
  let r ← CreateGLTexture W r.2 "../../Utilities/textures/rusticwood.jpg" "rusticwood"
  let r ← CreateGLTexture W r.2 "../../Utilities/textures/blackwall.jpg" "wall"
  let r ← CreateGLTexture W r.2 "../../Utilities/textures/stainless.jpg" "stainless"
  pure (BindGLTextures r.2)

/-- The method `SetupSceneLights()`; the shader manager is dereferenced without a NULL
check. -/
def SetupSceneLights (s : State ℚ) : Except Fault (State ℚ) :=
  if s.m_pShaderManager then
    let s := s.emit (.setBoolValue g_UseLightingName true)
    let lightPosition : Vec3 ℚ := ⟨-5.0, 10.0, 5.0⟩
    let lightDirection : Vec3 ℚ := ⟨0.5, -1.0, -0.5⟩
    let color : Vec3 ℚ := ⟨1.5, 1.4, 0.9⟩
    let s := s.emit (.setVec3Value "lightSources[0].position" lightPosition)
    let s := s.emit (.setVec3Value "lightSources[0].direction" lightDirection)
    let s := s.emit
      (.setVec3Value "lightSources[0].ambientColor" ⟨color.x * 0.2, color.y * 0.2, color.z * 0.2⟩)
    let s := s.emit (.setVec3Value "lightSources[0].diffuseColor" color)
    let s := s.emit (.setVec3Value "lightSources[0].specularColor" color)
    let s := s.emit (.setFloatValue "lightSources[0].focalStrength" 100.0)
    let s := s.emit (.setFloatValue "lightSources[0].specularIntensity" 1.0)
    let lightPosition2 : Vec3 ℚ := ⟨5.0, 10.0, 5.0⟩
    let lightDirection2 : Vec3 ℚ := ⟨-0.5, -1.0, -0.5⟩
    let secondColor : Vec3 ℚ := ⟨0.2, 0.6, 1.0⟩
    let s := s.emit (.setVec3Value "lightSources[1].position" lightPosition2)
    let s := s.emit (.setVec3Value "lightSources[1].direction" lightDirection2)
    let s := s.emit
      (.setVec3Value "lightSources[1].ambientColor"
        ⟨secondColor.x * 0.2, secondColor.y * 0.2, secondColor.z * 0.2⟩)
    let s := s.emit (.setVec3Value "lightSources[1].diffuseColor" secondColor)
    let s := s.emit (.setVec3Value "lightSources[1].specularColor" secondColor)
    let s := s.emit (.setFloatValue "lightSources[1].focalStrength" 100.0)
    let s := s.emit (.setFloatValue "lightSources[1].specularIntensity" 1.0)
    .ok s
  else .error .nullShaderManager

/-- The method `PrepareScene()`. -/
def PrepareScene (W : World ℚ) (s : State ℚ) : Except Fault (State ℚ) := do
  let s := DefineObjectMaterials s
  let s ← SetupSceneLights s
  let s ← LoadSceneTextures W s
  let s := s.emit .LoadPlaneMesh
  let s := s.emit .LoadBoxMesh
  let s := s.emit .LoadTaperedCylinderMesh
  let s := s.emit .LoadPrismMesh
  let s := s.emit .LoadCylinderMesh
  pure s

/-- The method `RenderScene()`. -/
def RenderScene (W : World ℚ) (s : State ℚ) : Except Fault (State ℚ) := do
  -- floor plane
  let s := SetTransformations W s ⟨20.0, 0.0, 10.0⟩ 0.0 0.0 0.0 ⟨0.0, 0.0, -10.0⟩
  let s := SetShaderTexture s "rusticwood"
  let s ← SetShaderMaterial W s "clay"
  let s := s.emit .DrawPlaneMesh
  -- back wall plane
  let s := SetTransformations W s ⟨20.0, 0.0, 8.0⟩ 90.0 0.0 0.0 ⟨0.0, 8.0, -10.0⟩
  let s := SetShaderTexture s "wall"
  let s ← SetShaderMaterial W s "cement"
  let s := s.emit .DrawPlaneMesh
  -- inner monitor
  let s := SetTransformations W s ⟨9.0, 4.0, 1.0⟩ 0.0 0.0 0.0 ⟨0.0, 4.5, -9.0⟩
  let s := SetShaderTexture s "static"
  let s := s.emit .DrawBoxMesh
  -- boxMac
  let s := SetTransformations W s ⟨2.0, 1.0, 1.0⟩ 0.0 0.0 0.0 ⟨4.0, 0.5, -7.0⟩
  let s := SetShaderTexture s "stainless"
  let s := s.emit .DrawBoxMesh
  -- boxX
  let s := SetTransformations W s ⟨2.0, 5.0, 1.0⟩ 180.0 0.0 0.0 ⟨-7.0, 0.5, -8.0⟩
  let s := SetShaderTexture s "xbox"
  let s := s.emit .DrawBoxMesh
  -- monitor outline
  let s := SetTransformations W s ⟨10.0, 5.0, 1.0⟩ 0.0 0.0 0.0 ⟨0.0, 4.5, -9.0⟩
  let s := SetShaderColor s 0.0 0.0 0.0 1.0
  let s := s.emit .DrawBoxMesh
  -- tapered cylinder
  let s := SetTransformations W s ⟨0.7, 2.0, 0.2⟩ (-10.0) 0.0 0.0 ⟨0.0, 0.0, -9.0⟩
  let s := SetShaderTexture s "wall"
  let s ← SetShaderMaterial W s "cement"
  let s := s.emit .DrawTaperedCylinderMesh
  -- prism
  let s := SetTransformations W s ⟨6.0, 0.8, 0.3⟩ 0.0 130.0 0.0 ⟨0.1, 0.4, -9.5⟩
  let s := SetShaderTexture s "wall"
  let s ← SetShaderMaterial W s "cement"
  let s := s.emit .DrawPrismMesh
  -- prism2
  let s := SetTransformations W s ⟨6.0, 0.8, 0.3⟩ 0.0 (-130.0) 0.0 ⟨-0.1, 0.4, -9.5⟩
  let s := SetShaderTexture s "wall"
  let s ← SetShaderMaterial W s "cement"
  let s := s.emit .DrawPrismMesh
  -- cylinder
  let s := SetTransformations W s ⟨0.5, 1.8, 0.5⟩ (-1.0) 90.0 0.0 ⟨-4.7, 0.0, -6.0⟩
  let s := SetShaderTexture s "monster"
  let s ← SetShaderMaterial W s "glass"
  let s := s.emit .DrawCylinderMesh
  pure s

end Binder

/-! ## Reading a trace -/

section Reading

variable {α : Type}

/-- Whether an event is a mesh draw call. -/
def Event.isDraw : Event α → Bool
  | .DrawPlaneMesh => true
  | .DrawBoxMesh => true
  | .DrawTaperedCylinderMesh => true
  | .DrawPrismMesh => true
  | .DrawCylinderMesh => true
  | _ => false

/-- Whether an event is a write of the model matrix. -/
def Event.isModelWrite : Event α → Bool
  | .setMat4Value name _ => name == g_ModelName
  | _ => false

/-- Whether an event is a uniform write through the shader manager. -/
def Event.isUniformWrite : Event α → Bool
  | .setMat4Value _ _ => true
  | .setVec4Value _ _ => true
  | .setVec3Value _ _ => true
  | .setVec2Value _ _ => true
  | .setFloatValue _ _ => true
  | .setIntValue _ _ => true
  | .setBoolValue _ _ => true
  | .setSampler2DValue _ _ => true
  | _ => false

/-- Whether an event releases a decoded image. -/
def Event.isImageFree : Event α → Bool
  | .stbi_image_free _ => true
  | _ => false

/-- Whether an event deletes the texture named `textureID`. -/
def Event.isDeleteOf (textureID : Nat) : Event α → Bool
  | .glDeleteTextures t => t == textureID
  | _ => false

/-- The mesh draw calls of a trace, in order. -/
def drawCalls (trace : List (Event α)) : List (Event α) :=
  trace.filter Event.isDraw

/-- The model-matrix writes and mesh draw calls of a trace, in order. -/
def drawSchedule (trace : List (Event α)) : List (Event α) :=
  trace.filter fun e => e.isModelWrite || e.isDraw

/-- The uniform writes of a trace, in order. -/
def uniformWrites (trace : List (Event α)) : List (Event α) :=
  trace.filter Event.isUniformWrite

/-- How many times a trace releases a decoded image. -/
def imageFrees (trace : List (Event α)) : Nat :=
  (trace.filter Event.isImageFree).length

/-- How many times a trace deletes the texture named `textureID`. -/
def timesDeleted (textureID : Nat) (trace : List (Event α)) : Nat :=
  (trace.filter (Event.isDeleteOf textureID)).length

end Reading

/-! ## Sequences of loads -/

/-- The texture name that `glGenTextures` stores during `CreateGLTexture W s filename tag`,
when the image decodes. -/
def CreateGLTexture.textureID {α : Type} (W : World α) (s : State α) (filename : String) : Nat :=
  W.glGenTextures
    (s.trace ++ [.stbi_set_flip_vertically_on_load true] ++ [.stbi_load filename])

/-- One call of `CreateGLTexture` per (filename, tag) pair of the list, in order; a fault ends
the run. -/
def loadAll {α : Type} (W : World α) (s : State α) :
    List (String × String) → Except Fault (State α)
  | [] => .ok s
  | call :: rest =>
    match CreateGLTexture W s call.1 call.2 with
    | .ok r => loadAll W r.2 rest
    | .error e => .error e

/-- The `glDeleteTextures` calls for the registered entries, in slot order. -/
def deleteCalls {α : Type} (s : State α) : List (Event α) :=
  (List.range s.m_loadedTextures).map fun i => .glDeleteTextures (s.m_textureIDs i).ID

/-- The uniform writes of `SetShaderMaterial W s materialTag` when the shader manager is not
NULL: none on an empty table, and otherwise the five fields of the material that `FindMaterial`
hands back. -/
def materialWrites {α : Type} (W : World α) (s : State α) (materialTag : String) :
    List (Event α) :=
  if s.m_objectMaterials.length > 0 then
    [.setVec3Value "material.ambientColor"
        (FindMaterial s materialTag (W.uninitialized s.trace)).2.ambientColor,
      .setFloatValue "material.ambientStrength"
        (FindMaterial s materialTag (W.uninitialized s.trace)).2.ambientStrength,
      .setVec3Value "material.diffuseColor"
        (FindMaterial s materialTag (W.uninitialized s.trace)).2.diffuseColor,
      .setVec3Value "material.specularColor"
        (FindMaterial s materialTag (W.uninitialized s.trace)).2.specularColor,
      .setFloatValue "material.shininess"
        (FindMaterial s materialTag (W.uninitialized s.trace)).2.shininess]
  else []

/-- The model-matrix writes and mesh draw calls of `RenderScene`, in source order, with the
literal scale, rotation and position of each object. -/
def RenderScene.schedule (W : World ℚ) : List (Event ℚ) :=
  [.setMat4Value "model"
      (SetTransformations.modelView W ⟨20.0, 0.0, 10.0⟩ 0.0 0.0 0.0 ⟨0.0, 0.0, -10.0⟩),
    .DrawPlaneMesh,
    .setMat4Value "model"
      (SetTransformations.modelView W ⟨20.0, 0.0, 8.0⟩ 90.0 0.0 0.0 ⟨0.0, 8.0, -10.0⟩),
    .DrawPlaneMesh,
    .setMat4Value "model"
      (SetTransformations.modelView W ⟨9.0, 4.0, 1.0⟩ 0.0 0.0 0.0 ⟨0.0, 4.5, -9.0⟩),
    .DrawBoxMesh,
    .setMat4Value "model"
      (SetTransformations.modelView W ⟨2.0, 1.0, 1.0⟩ 0.0 0.0 0.0 ⟨4.0, 0.5, -7.0⟩),
    .DrawBoxMesh,
    .setMat4Value "model"
      (SetTransformations.modelView W ⟨2.0, 5.0, 1.0⟩ 180.0 0.0 0.0 ⟨-7.0, 0.5, -8.0⟩),
    .DrawBoxMesh,
    .setMat4Value "model"
      (SetTransformations.modelView W ⟨10.0, 5.0, 1.0⟩ 0.0 0.0 0.0 ⟨0.0, 4.5, -9.0⟩),
    .DrawBoxMesh,
    .setMat4Value "model"
      (SetTransformations.modelView W ⟨0.7, 2.0, 0.2⟩ (-10.0) 0.0 0.0 ⟨0.0, 0.0, -9.0⟩),
    .DrawTaperedCylinderMesh,
    .setMat4Value "model"
      (SetTransformations.modelView W ⟨6.0, 0.8, 0.3⟩ 0.0 130.0 0.0 ⟨0.1, 0.4, -9.5⟩),
    .DrawPrismMesh,
    .setMat4Value "model"
      (SetTransformations.modelView W ⟨6.0, 0.8, 0.3⟩ 0.0 (-130.0) 0.0 ⟨-0.1, 0.4, -9.5⟩),
    .DrawPrismMesh,
    .setMat4Value "model"
      (SetTransformations.modelView W ⟨0.5, 1.8, 0.5⟩ (-1.0) 90.0 0.0 ⟨-4.7, 0.0, -6.0⟩),
    .DrawCylinderMesh]

/-! ## The composition as the specification words it -/

namespace Spec

variable {α : Type} [Zero α] [One α] [Add α] [Sub α] [Mul α] [Neg α]

/-- The componentwise product `s ⊙ p`. -/
def scalePoint (s p : Vec3 α) : Vec3 α := ⟨s.x * p.x, s.y * p.y, s.z * p.z⟩

/-- A point rotated about the X axis. -/
def rotX (c s : α) (p : Vec3 α) : Vec3 α := ⟨p.x, c * p.y - s * p.z, s * p.y + c * p.z⟩

/-- A point rotated about the Y axis. -/
def rotY (c s : α) (p : Vec3 α) : Vec3 α := ⟨c * p.x + s * p.z, p.y, c * p.z - s * p.x⟩

/-- A point rotated about the Z axis. -/
def rotZ (c s : α) (p : Vec3 α) : Vec3 α := ⟨c * p.x - s * p.y, s * p.x + c * p.y, p.z⟩

/-- The sum `t + p`. -/
def translatePoint (t p : Vec3 α) : Vec3 α := ⟨t.x + p.x, t.y + p.y, t.z + p.z⟩

/-- The point `t + Rx(Ry(Rz(s ⊙ p)))`, the angles given in degrees. -/
def transformPoint (W : World α) (s : Vec3 α) (x y z : α) (t p : Vec3 α) : Vec3 α :=
  translatePoint t
    (rotX (W.cos (W.radians x)) (W.sin (W.radians x))
      (rotY (W.cos (W.radians y)) (W.sin (W.radians y))
        (rotZ (W.cos (W.radians z)) (W.sin (W.radians z)) (scalePoint s p))))

end Spec

/-! ## Concrete inputs -/

/-- A material whose fields are all zero and whose tag is empty. -/
def zeroMaterial : OBJECT_MATERIAL ℚ :=
  { ambientColor := ⟨0, 0, 0⟩
    ambientStrength := 0
    diffuseColor := ⟨0, 0, 0⟩
    specularColor := ⟨0, 0, 0⟩
    shininess := 0
    tag := "" }

/-- A concrete world to run the code in: angles are kept in degrees and the trigonometric
functions are exact at 0 and 90 degrees; "gray.png" decodes to a one-channel image,
"rgba.png" to a four-channel one, "missing.png" does not decode and every other path decodes
to a three-channel image; the k-th generated texture name is 100 + (length of the trace);
an uninitialised material reads as `zeroMaterial`. -/
def testWorld : World ℚ :=
  { radians := fun d => d
    cos := fun d => if d = 0 then 1 else 0
    sin := fun d => if d = 90 then 1 else 0
    stbi_load := fun filename =>
      if filename = "missing.png" then none
      else if filename = "gray.png" then some ⟨8, 8, 1⟩
      else if filename = "rgba.png" then some ⟨8, 8, 4⟩
      else some ⟨64, 64, 3⟩
    glGenTextures := fun trace => 100 + trace.length
    uninitialized := fun _ => zeroMaterial }

/-- A registry with one texture: slot 0 holds the name 7 under the tag "dup". -/
def oneTexture : State ℚ :=
  { m_pShaderManager := true
    m_textureIDs := fun i => if i = 0 then ⟨7, "dup"⟩ else ⟨0, ""⟩
    m_loadedTextures := 1
    m_objectMaterials := []
    trace := [] }

/-- A registry with one texture whose name is the largest `GLuint`, under the tag "t". -/
def hugeHandle : State ℚ :=
  { m_pShaderManager := true
    m_textureIDs := fun i => if i = 0 then ⟨4294967295, "t"⟩ else ⟨0, ""⟩
    m_loadedTextures := 1
    m_objectMaterials := []
    trace := [] }

/-- The five uniform writes that hand a material to the shader. -/
def materialUniforms {α : Type} (m : OBJECT_MATERIAL α) : List (Event α) :=
  [.setVec3Value "material.ambientColor" m.ambientColor,
    .setFloatValue "material.ambientStrength" m.ambientStrength,
    .setVec3Value "material.diffuseColor" m.diffuseColor,
    .setVec3Value "material.specularColor" m.specularColor,
    .setFloatValue "material.shininess" m.shininess]

/-- A state whose material table holds two materials with the same tag "dup": the first has
all fields 1, the second all fields 2. -/
def twoMaterials : State ℚ :=
  { m_pShaderManager := true
    m_textureIDs := fun _ => ⟨0, ""⟩
    m_loadedTextures := 0
    m_objectMaterials :=
      [{ ambientColor := ⟨1, 1, 1⟩, ambientStrength := 1, diffuseColor := ⟨1, 1, 1⟩,
         specularColor := ⟨1, 1, 1⟩, shininess := 1, tag := "dup" },
       { ambientColor := ⟨2, 2, 2⟩, ambientStrength := 2, diffuseColor := ⟨2, 2, 2⟩,
         specularColor := ⟨2, 2, 2⟩, shininess := 2, tag := "dup" }]
    trace := [] }

/-- A material of floats whose fields are all zero and whose tag is empty. -/
def zeroMaterial32 : OBJECT_MATERIAL Binary32 :=
  { ambientColor := ⟨0, 0, 0⟩
    ambientStrength := 0
    diffuseColor := ⟨0, 0, 0⟩
    specularColor := ⟨0, 0, 0⟩
    shininess := 0
    tag := "" }

/-- The float nearest to pi / 180, the factor of `glm::radians`: 9370165 * 2 ^ (-29). -/
def radiansFactor : Binary32 := .finite 9370165 (-29)

/-- A world of floats: `glm::radians` multiplies by `radiansFactor`; `cosf` and `sinf` are
given at the two angles 0 and `radians(90) = 13176795 * 2 ^ (-23)` (1.5707964), where
`cosf` is 1 and `-6151831 * 2 ^ (-47)` (-4.371139e-08) and `sinf` is 0 and 1, and are left
undetermined (NaN) elsewhere; no image decodes. -/
def floatWorld : World Binary32 :=
  { radians := fun d => d * radiansFactor
    cos := fun a =>
      if a = 0 then 1
      else if a = .finite 13176795 (-23) then .finite (-6151831) (-47)
      else .nan
    sin := fun a =>
      if a = 0 then 0
      else if a = .finite 13176795 (-23) then 1
      else .nan
    stbi_load := fun _ => none
    glGenTextures := fun trace => 100 + trace.length
    uninitialized := fun _ => zeroMaterial32 }

/-! ## Reading the scene -/

/-- The texture tags that `RenderScene` passes to `SetShaderTexture`, in source order. -/
def RenderScene.textureTags : List String :=
  ["rusticwood", "wall", "static", "stainless", "xbox", "wall", "wall", "wall", "monster"]

/-- The material tags that `RenderScene` passes to `SetShaderMaterial`, in source order. -/
def RenderScene.materialTags : List String :=
  ["clay", "cement", "cement", "cement", "cement", "glass"]

/-- The image paths that `LoadSceneTextures` passes to `CreateGLTexture`, in source order. -/
def LoadSceneTextures.files : List String :=
  ["../../Utilities/textures/static3.jpg", "../../Utilities/textures/blackxbox4.jpg",
    "../../Utilities/textures/monster2.jpg", "../../Utilities/textures/rusticwood.jpg",
    "../../Utilities/textures/blackwall.jpg", "../../Utilities/textures/stainless.jpg"]

/-- A path whose load succeeds: the file decodes to an image with three or four channels. -/
def supported {α : Type} (W : World α) (filename : String) : Bool :=
  match W.stbi_load filename with
  | some image => image.colorChannels == 3 || image.colorChannels == 4
  | none => false

/-- The first material of a table with the given tag. -/
def firstMaterial {α : Type} (ms : List (OBJECT_MATERIAL α)) (tag : String) :
    Option (OBJECT_MATERIAL α) :=
  ms.find? fun m => m.tag == tag

/-- The five uniform writes of the first material with the given tag, if there is one. -/
def definedWrites {α : Type} (ms : List (OBJECT_MATERIAL α)) (tag : String) : List (Event α) :=
  match firstMaterial ms tag with
  | some m => materialUniforms m
  | none => []

/-- The values written to the texture sampler uniform, in order. -/
def samplerWrites {α : Type} (trace : List (Event α)) : List Int :=
  trace.filterMap fun e =>
    match e with
    | .setSampler2DValue name value => if name = g_TextureValueName then some value else none
    | _ => none

/-- Whether an event writes one of the five material uniforms. -/
def Event.isMaterialWrite {α : Type} : Event α → Bool
  | .setVec3Value name _ =>
    name == "material.ambientColor" || name == "material.diffuseColor"
      || name == "material.specularColor"
  | .setFloatValue name _ => name == "material.ambientStrength" || name == "material.shininess"
  | _ => false

/-- The writes of the five material uniforms in a trace, in order. -/
def materialPart {α : Type} (trace : List (Event α)) : List (Event α) :=
  trace.filter Event.isMaterialWrite

/-! ## Material lookup -/

section MaterialTheorems

variable {α : Type}

/-- On a table that holds at least one material, `FindMaterial` returns `true` whatever the
tag. -/
theorem FindMaterial_fst_of_ne_nil (s : State α) (tag : String) (material : OBJECT_MATERIAL α)
    (h : s.m_objectMaterials ≠ []) : (FindMaterial s tag material).1 = true := by
  unfold FindMaterial
  have : s.m_objectMaterials.length ≠ 0 := by
    simpa [List.length_eq_zero] using h
  simp [this]

/-- When no material of the list has the tag, the loop leaves `material` as it was. -/
theorem FindMaterial_loop_of_absent (tag : String) (material : OBJECT_MATERIAL α)
    (ms : List (OBJECT_MATERIAL α)) (h : ∀ m ∈ ms, m.tag ≠ tag) :
    FindMaterial.loop tag material ms = material := by
  induction ms with
  | nil => rfl
  | cons m rest ih =>
    have hm : m.tag ≠ tag := h m (List.mem_cons_self _ _)
    have hr : ∀ x ∈ rest, x.tag ≠ tag := fun x hx => h x (List.mem_cons_of_mem _ hx)
    simp [FindMaterial.loop, hm, ih hr]

end MaterialTheorems

/-- C1, at a failing input: on the three-material table that `DefineObjectMaterials` builds,
no material has the tag "nonexistent-tag", and yet `FindMaterial` returns `true` for it (and
leaves the caller's material as it was). -/
theorem FindMaterial_unknown_tag_returns_true :
    (∀ m ∈ (DefineObjectMaterials (State.new ℚ true)).m_objectMaterials,
        m.tag ≠ "nonexistent-tag") ∧
      FindMaterial (DefineObjectMaterials (State.new ℚ true)) "nonexistent-tag" zeroMaterial
        = (true, zeroMaterial) := by
  constructor
  · intro m hm
    simp [DefineObjectMaterials, State.new] at hm
    rcases hm with rfl | rfl | rfl <;> decide
  · simp [FindMaterial, FindMaterial.loop, DefineObjectMaterials, State.new]

/-- C2, at a failing input: on the three-material table that `DefineObjectMaterials` builds,
`SetShaderMaterial` with the tag "nonexistent-tag" (which no material has) succeeds and writes
all five material uniforms, with the contents of its uninitialised local. -/
theorem SetShaderMaterial_unknown_tag_writes_uniforms :
    (∀ m ∈ (DefineObjectMaterials (State.new ℚ true)).m_objectMaterials,
        m.tag ≠ "nonexistent-tag") ∧
      ∃ s, SetShaderMaterial testWorld (DefineObjectMaterials (State.new ℚ true))
            "nonexistent-tag" = .ok s ∧
        uniformWrites s.trace =
          [.setVec3Value "material.ambientColor" ⟨0, 0, 0⟩,
           .setFloatValue "material.ambientStrength" 0,
           .setVec3Value "material.diffuseColor" ⟨0, 0, 0⟩,
           .setVec3Value "material.specularColor" ⟨0, 0, 0⟩,
           .setFloatValue "material.shininess" 0] ∧
        uniformWrites (DefineObjectMaterials (State.new ℚ true)).trace = [] := by
  constructor
  · intro m hm
    simp [DefineObjectMaterials, State.new] at hm
    rcases hm with rfl | rfl | rfl <;> decide
  · refine ⟨_, rfl, ?_, ?_⟩ <;>
      simp [uniformWrites, Event.isUniformWrite, State.emit, FindMaterial, FindMaterial.loop,
        DefineObjectMaterials, State.new, testWorld, zeroMaterial]

/-! ## Texture registry -/

section RegistryTheorems

variable {α : Type}

/-- First match, slot: if the entries at `i, …, i + k - 1` do not have the tag, the entry at
`i + k` has it and the loop has more than `k` iterations left, the loop returns `i + k`. -/
theorem FindTextureSlot_loop_first (ids : Nat → TEXTURE_INFO) (tag : String) (k : Nat) :
    ∀ (n i : Nat), k < n → (∀ j, i ≤ j → j < i + k → (ids j).tag ≠ tag) →
      (ids (i + k)).tag = tag → FindTextureSlot.loop ids tag n i = ((i + k : Nat) : Int) := by
  induction k with
  | zero =>
    intro n i hn _ hk
    obtain ⟨m, rfl⟩ : ∃ m, n = m + 1 := ⟨n - 1, by omega⟩
    simp only [Nat.add_zero] at hk ⊢
    simp [FindTextureSlot.loop, hk]
  | succ k ih =>
    intro n i hn hlt hk
    obtain ⟨m, rfl⟩ : ∃ m, n = m + 1 := ⟨n - 1, by omega⟩
    have hi : (ids i).tag ≠ tag := hlt i (le_refl _) (by omega)
    have hrec := ih m (i + 1) (by omega) (fun j h1 h2 => hlt j (by omega) (by omega))
      (by rw [show i + 1 + k = i + (k + 1) by omega]; exact hk)
    simp only [FindTextureSlot.loop, hi, if_false]
    rw [hrec, show i + 1 + k = i + (k + 1) by omega]

/-- First match, handle: under the same conditions the loop of `FindTextureID` returns the
name stored at `i + k`, converted to `int`. -/
theorem FindTextureID_loop_first (ids : Nat → TEXTURE_INFO) (tag : String) (k : Nat) :
    ∀ (n i : Nat), k < n → (∀ j, i ≤ j → j < i + k → (ids j).tag ≠ tag) →
      (ids (i + k)).tag = tag →
      FindTextureID.loop ids tag n i = GLuint_to_int (ids (i + k)).ID := by
  induction k with
  | zero =>
    intro n i hn _ hk
    obtain ⟨m, rfl⟩ : ∃ m, n = m + 1 := ⟨n - 1, by omega⟩
    simp only [Nat.add_zero] at hk ⊢
    simp [FindTextureID.loop, hk]
  | succ k ih =>
    intro n i hn hlt hk
    obtain ⟨m, rfl⟩ : ∃ m, n = m + 1 := ⟨n - 1, by omega⟩
    have hi : (ids i).tag ≠ tag := hlt i (le_refl _) (by omega)
    have hrec := ih m (i + 1) (by omega) (fun j h1 h2 => hlt j (by omega) (by omega))
      (by rw [show i + 1 + k = i + (k + 1) by omega]; exact hk)
    simp only [FindTextureID.loop, hi, if_false]
    rw [hrec, show i + 1 + k = i + (k + 1) by omega]

/-- The two lookups after an entry is written at index `c` of an array none of whose first
`c` entries has the tag, with `c + 1` entries counted. -/
theorem Find_after_register (ids : Nat → TEXTURE_INFO) (c textureID : Nat) (tag : String)
    (hfresh : ∀ i, i < c → (ids i).tag ≠ tag) :
    FindTextureSlot.loop (Function.update ids c ⟨textureID, tag⟩) tag (c + 1) 0 = (c : Int) ∧
      FindTextureID.loop (Function.update ids c ⟨textureID, tag⟩) tag (c + 1) 0
        = GLuint_to_int textureID := by
  have hbefore : ∀ j, 0 ≤ j → j < 0 + c →
      (Function.update ids c ⟨textureID, tag⟩ j).tag ≠ tag := by
    intro j _ hj
    have hne : j ≠ c := by omega
    rw [Function.update_noteq hne]
    exact hfresh j (by omega)
  have hat : (Function.update ids c ⟨textureID, tag⟩ (0 + c)).tag = tag := by
    rw [Nat.zero_add, Function.update_same]
  have h1 := FindTextureSlot_loop_first _ tag c (c + 1) 0 (by omega) hbefore hat
  have h2 := FindTextureID_loop_first _ tag c (c + 1) 0 (by omega) hbefore hat
  rw [Nat.zero_add] at h1 h2
  rw [Function.update_same] at h2
  exact ⟨h1, h2⟩

/-- A `GLuint` below 2^31 converts to the same number. -/
theorem GLuint_to_int_of_lt (u : Nat) (h : u < 2 ^ 31) : GLuint_to_int u = (u : Int) := by
  have h1 : u % 2 ^ 32 = u := Nat.mod_eq_of_lt (by omega)
  unfold GLuint_to_int
  rw [h1, if_pos h]

/-- What `CreateGLTexture` does when the image decodes with three or four channels: thirteen
external calls, among them one release of the decoded image, and then the registration in the
slot `m_loadedTextures`, or a write past the array when all slots are taken. -/
theorem CreateGLTexture_of_supported (W : World α) (s : State α) (filename tag : String)
    (image : Image) (hload : W.stbi_load filename = some image)
    (hch : image.colorChannels = 3 ∨ image.colorChannels = 4) :
    ∃ evs : List (Event α), imageFrees evs = 1 ∧
      CreateGLTexture W s filename tag =
        if s.m_loadedTextures < textureSlots then
          .ok (true,
            { m_pShaderManager := s.m_pShaderManager
              m_textureIDs := Function.update s.m_textureIDs s.m_loadedTextures
                ⟨CreateGLTexture.textureID W s filename, tag⟩
              m_loadedTextures := s.m_loadedTextures + 1
              m_objectMaterials := s.m_objectMaterials
              trace := s.trace ++ evs })
        else .error (.outOfBoundsWrite s.m_loadedTextures) := by
  rcases hch with h3 | h4
  · refine ⟨[.stbi_set_flip_vertically_on_load true, .stbi_load filename,
      .glGenTextures (CreateGLTexture.textureID W s filename),
      .glBindTexture (CreateGLTexture.textureID W s filename),
      .glTexParameteri "GL_TEXTURE_WRAP_S" "GL_REPEAT",
      .glTexParameteri "GL_TEXTURE_WRAP_T" "GL_REPEAT",
      .glTexParameteri "GL_TEXTURE_MIN_FILTER" "GL_LINEAR",
      .glTexParameteri "GL_TEXTURE_MAG_FILTER" "GL_LINEAR",
      .glTexImage2D "GL_RGB8" image.width image.height "GL_RGB",
      .glGenerateMipmap, .stbi_image_free image, .glBindTexture 0], ?_, ?_⟩
    · simp [imageFrees, Event.isImageFree]
    · simp [CreateGLTexture, CreateGLTexture.register, hload, h3, CreateGLTexture.textureID,
        State.emit]
  · have h3 : image.colorChannels ≠ 3 := by omega
    refine ⟨[.stbi_set_flip_vertically_on_load true, .stbi_load filename,
      .glGenTextures (CreateGLTexture.textureID W s filename),
      .glBindTexture (CreateGLTexture.textureID W s filename),
      .glTexParameteri "GL_TEXTURE_WRAP_S" "GL_REPEAT",
      .glTexParameteri "GL_TEXTURE_WRAP_T" "GL_REPEAT",
      .glTexParameteri "GL_TEXTURE_MIN_FILTER" "GL_LINEAR",
      .glTexParameteri "GL_TEXTURE_MAG_FILTER" "GL_LINEAR",
      .glTexImage2D "GL_RGBA8" image.width image.height "GL_RGBA",
      .glGenerateMipmap, .stbi_image_free image, .glBindTexture 0], ?_, ?_⟩
    · simp [imageFrees, Event.isImageFree]
    · simp [CreateGLTexture, CreateGLTexture.register, hload, h3, h4,
        CreateGLTexture.textureID, State.emit]

/-- What `CreateGLTexture` does when the image decodes with another number of channels: it
returns `false` after eight external calls, none of which releases the decoded image. -/
theorem CreateGLTexture_of_unsupported (W : World α) (s : State α) (filename tag : String)
    (image : Image) (hload : W.stbi_load filename = some image)
    (h3 : image.colorChannels ≠ 3) (h4 : image.colorChannels ≠ 4) :
    ∃ evs : List (Event α), imageFrees evs = 0 ∧
      CreateGLTexture W s filename tag = .ok (false, { s with trace := s.trace ++ evs }) := by
  refine ⟨[.stbi_set_flip_vertically_on_load true, .stbi_load filename,
    .glGenTextures (CreateGLTexture.textureID W s filename),
    .glBindTexture (CreateGLTexture.textureID W s filename),
    .glTexParameteri "GL_TEXTURE_WRAP_S" "GL_REPEAT",
    .glTexParameteri "GL_TEXTURE_WRAP_T" "GL_REPEAT",
    .glTexParameteri "GL_TEXTURE_MIN_FILTER" "GL_LINEAR",
    .glTexParameteri "GL_TEXTURE_MAG_FILTER" "GL_LINEAR"], ?_, ?_⟩
  · simp [imageFrees, Event.isImageFree]
  · simp [CreateGLTexture, hload, h3, h4, CreateGLTexture.textureID, State.emit]

/-- What `CreateGLTexture` does when the image does not decode: it returns `false` after two
external calls. -/
theorem CreateGLTexture_of_undecoded (W : World α) (s : State α) (filename tag : String)
    (hload : W.stbi_load filename = none) :
    CreateGLTexture W s filename tag =
      .ok (false,
        { s with
          trace := s.trace ++ [.stbi_set_flip_vertically_on_load true, .stbi_load filename] }) := by
  simp [CreateGLTexture, hload, State.emit]

end RegistryTheorems

/-- C3, as stated, fails when the tag is already registered: on `oneTexture`, whose slot 0
holds the name 7 under the tag "dup", a successful load with the tag "dup" is put in slot 1
with the generated name 102, while `FindTextureSlot` and `FindTextureID` answer with slot 0
and the name 7 of the older entry. -/
theorem CreateGLTexture_duplicate_tag_finds_first :
    ∃ s1 : State ℚ,
      CreateGLTexture testWorld oneTexture "b.png" "dup" = .ok (true, s1) ∧
      oneTexture.m_loadedTextures = 1 ∧
      CreateGLTexture.textureID testWorld oneTexture "b.png" = 102 ∧
      (s1.m_textureIDs 1).ID = 102 ∧ (s1.m_textureIDs 1).tag = "dup" ∧
      FindTextureSlot s1 "dup" = 0 ∧
      FindTextureID s1 "dup" = 7 := by
  obtain ⟨evs, -, hrun⟩ := CreateGLTexture_of_supported testWorld oneTexture "b.png" "dup"
    ⟨64, 64, 3⟩ rfl (Or.inl rfl)
  rw [if_pos (by decide)] at hrun
  have hid : CreateGLTexture.textureID testWorld oneTexture "b.png" = 102 := by
    simp [CreateGLTexture.textureID, testWorld, oneTexture]
  refine ⟨_, hrun, rfl, hid, ?_, ?_, ?_, ?_⟩
  · simp [Function.update, oneTexture, CreateGLTexture.textureID, testWorld]
  · simp [Function.update, oneTexture]
  · simp [FindTextureSlot, FindTextureSlot.loop, Function.update, oneTexture]
  · simp [FindTextureID, FindTextureID.loop, Function.update, oneTexture, GLuint_to_int]

/-- C3 (amended): on a registry with a free slot in which no registered entry has the tag yet,
a load of an image with three or four channels succeeds; afterwards the count is one more,
`FindTextureSlot` returns the number of entries registered before, and `FindTextureID` returns
the texture name generated by this load, converted to `int` (the name itself when it is below
2^31). -/
theorem CreateGLTexture_then_Find {α : Type} (W : World α) (s : State α)
    (filename tag : String) (image : Image)
    (hload : W.stbi_load filename = some image)
    (hch : image.colorChannels = 3 ∨ image.colorChannels = 4)
    (hroom : s.m_loadedTextures < textureSlots)
    (hfresh : ∀ i, i < s.m_loadedTextures → (s.m_textureIDs i).tag ≠ tag) :
    ∃ s1 : State α, CreateGLTexture W s filename tag = .ok (true, s1) ∧
      s1.m_loadedTextures = s.m_loadedTextures + 1 ∧
      (s1.m_textureIDs s.m_loadedTextures).ID = CreateGLTexture.textureID W s filename ∧
      (s1.m_textureIDs s.m_loadedTextures).tag = tag ∧
      FindTextureSlot s1 tag = (s.m_loadedTextures : Int) ∧
      FindTextureID s1 tag = GLuint_to_int (CreateGLTexture.textureID W s filename) ∧
      (CreateGLTexture.textureID W s filename < 2 ^ 31 →
        FindTextureID s1 tag = (CreateGLTexture.textureID W s filename : Int)) := by
  obtain ⟨evs, -, hrun⟩ := CreateGLTexture_of_supported W s filename tag image hload hch
  rw [if_pos hroom] at hrun
  obtain ⟨hslot, hid⟩ := Find_after_register s.m_textureIDs s.m_loadedTextures
    (CreateGLTexture.textureID W s filename) tag hfresh
  refine ⟨_, hrun, rfl, by simp, by simp, hslot, hid, ?_⟩
  intro hlt
  rw [← GLuint_to_int_of_lt _ hlt]
  exact hid

/-- C3 (amended), at a concrete input: the first load into the empty registry. -/
theorem CreateGLTexture_then_Find_witness :
    testWorld.stbi_load "a.png" = some ⟨64, 64, 3⟩ ∧
      (State.new ℚ true).m_loadedTextures < textureSlots ∧
      ∃ s1 : State ℚ, CreateGLTexture testWorld (State.new ℚ true) "a.png" "wood" = .ok (true, s1) ∧
        s1.m_loadedTextures = 1 ∧
        FindTextureSlot s1 "wood" = 0 ∧
        FindTextureID s1 "wood" = 102 := by
  refine ⟨rfl, by decide, ?_⟩
  obtain ⟨s1, h1, h2, -, -, h5, -, h7⟩ :=
    CreateGLTexture_then_Find testWorld (State.new ℚ true) "a.png" "wood" ⟨64, 64, 3⟩ rfl
      (Or.inl rfl) (by decide) (fun i hi => by simp [State.new] at hi)
  have hid : CreateGLTexture.textureID testWorld (State.new ℚ true) "a.png" = 102 := by
    simp [CreateGLTexture.textureID, testWorld, State.new]
  refine ⟨s1, h1, by simpa [State.new] using h2, by simpa [State.new] using h5, ?_⟩
  rw [hid] at h7
  simpa using h7 (by norm_num)

/-- C4: `CreateGLTexture` returns `false` exactly when the image does not decode or decodes
with a number of channels other than three and four; and whenever it returns `false`, the
texture count and the texture array are what they were before the call. -/
theorem CreateGLTexture_false_iff {α : Type} (W : World α) (s : State α)
    (filename tag : String) :
    ((∃ s1, CreateGLTexture W s filename tag = .ok (false, s1)) ↔
        (W.stbi_load filename = none ∨
          ∃ image, W.stbi_load filename = some image ∧
            image.colorChannels ≠ 3 ∧ image.colorChannels ≠ 4)) ∧
      ∀ s1, CreateGLTexture W s filename tag = .ok (false, s1) →
        s1.m_loadedTextures = s.m_loadedTextures ∧ s1.m_textureIDs = s.m_textureIDs ∧
        s1.m_objectMaterials = s.m_objectMaterials := by
  cases hload : W.stbi_load filename with
  | none =>
    have hrun := CreateGLTexture_of_undecoded W s filename tag hload
    refine ⟨⟨fun _ => Or.inl rfl, fun _ => ⟨_, hrun⟩⟩, ?_⟩
    intro s1 h1
    rw [hrun] at h1
    injection h1 with h1
    injection h1 with _ h1
    subst h1
    exact ⟨rfl, rfl, rfl⟩
  | some image =>
    by_cases hch : image.colorChannels = 3 ∨ image.colorChannels = 4
    · obtain ⟨evs, -, hrun⟩ := CreateGLTexture_of_supported W s filename tag image hload hch
      have hne : ∀ s1, CreateGLTexture W s filename tag ≠ .ok (false, s1) := by
        intro s1 h1
        rw [hrun] at h1
        split at h1
        · injection h1 with h1
          injection h1 with h1 _
          exact Bool.noConfusion h1
        · exact Except.noConfusion h1
      refine ⟨⟨fun ⟨s1, h1⟩ => absurd h1 (hne s1), ?_⟩, fun s1 h1 => absurd h1 (hne s1)⟩
      rintro (h | ⟨img, himg, h3, h4⟩)
      · exact Option.noConfusion h
      · injection himg with himg
        subst himg
        rcases hch with h | h
        · exact absurd h h3
        · exact absurd h h4
    · have h3 : image.colorChannels ≠ 3 := fun h => hch (Or.inl h)
      have h4 : image.colorChannels ≠ 4 := fun h => hch (Or.inr h)
      obtain ⟨evs, -, hrun⟩ :=
        CreateGLTexture_of_unsupported W s filename tag image hload h3 h4
      refine ⟨⟨fun _ => Or.inr ⟨image, rfl, h3, h4⟩, fun _ => ⟨_, hrun⟩⟩, ?_⟩
      intro s1 h1
      rw [hrun] at h1
      injection h1 with h1
      injection h1 with _ h1
      subst h1
      exact ⟨rfl, rfl, rfl⟩

/-- C5, at a failing input: sixteen successful loads into the empty registry fill the sixteen
slots, and the seventeenth load of a decodable three-channel image writes at index 16, one
past the last entry of the array. -/
theorem CreateGLTexture_seventeenth_load_out_of_bounds :
    (∃ s : State ℚ,
        loadAll testWorld (State.new ℚ true) (List.replicate 16 ("t.png", "t")) = .ok s ∧
        s.m_loadedTextures = 16 ∧
        CreateGLTexture testWorld s "t.png" "t" = .error (.outOfBoundsWrite 16)) ∧
      loadAll testWorld (State.new ℚ true) (List.replicate 17 ("t.png", "t"))
        = .error (.outOfBoundsWrite 16) := by
  exact ⟨⟨_, rfl, rfl, rfl⟩, rfl⟩

/-- C6, at a failing input: the file "gray.png" decodes (to a one-channel image), the call
returns `false`, and the trace of the call holds the `stbi_load` but no `stbi_image_free`. -/
theorem CreateGLTexture_unsupported_channels_never_frees :
    testWorld.stbi_load "gray.png" = some ⟨8, 8, 1⟩ ∧
      ∃ s : State ℚ,
        CreateGLTexture testWorld (State.new ℚ true) "gray.png" "gray" = .ok (false, s) ∧
        imageFrees s.trace = 0 ∧
        s.trace.length = 8 := by
  refine ⟨rfl, _, rfl, ?_, ?_⟩ <;>
    simp [imageFrees, Event.isImageFree, State.emit, State.new]

/-! ## Teardown -/

/-- The loop of `DestroyGLTextures` appends one `glDeleteTextures` call per iteration and
changes nothing else. -/
theorem DestroyGLTextures_loop_eq {α : Type} (n : Nat) :
    ∀ (s : State α) (i : Nat), DestroyGLTextures.loop s n i =
      { s with
        trace := s.trace ++
          (List.range n).map fun k => Event.glDeleteTextures (s.m_textureIDs (i + k)).ID } := by
  induction n with
  | zero => intro s i; simp [DestroyGLTextures.loop]
  | succ n ih =>
    intro s i
    rw [DestroyGLTextures.loop, ih]
    simp [State.emit, List.range_succ_eq_map, Function.comp_def, Nat.add_assoc, Nat.add_comm 1]

/-- C7, as stated, fails: on `oneTexture`, whose only texture has the name 7, one call of
`DestroyGLTextures` deletes the name 7 once and two calls in a row delete it twice; the two
runs differ. -/
theorem DestroyGLTextures_twice_deletes_twice :
    timesDeleted 7 (DestroyGLTextures oneTexture).trace = 1 ∧
      timesDeleted 7 (DestroyGLTextures (DestroyGLTextures oneTexture)).trace = 2 ∧
      (DestroyGLTextures (DestroyGLTextures oneTexture)).trace
        ≠ (DestroyGLTextures oneTexture).trace := by
  refine ⟨?_, ?_, ?_⟩ <;>
    simp [DestroyGLTextures, DestroyGLTextures.loop, State.emit, oneTexture, timesDeleted,
      Event.isDeleteOf]

/-- C7 (amended): `DestroyGLTextures` leaves every member as it was and issues one
`glDeleteTextures` call for each registered entry, in slot order; a second call in a row issues
the same calls once more. -/
theorem DestroyGLTextures_effect {α : Type} (s : State α) :
    DestroyGLTextures s = { s with trace := s.trace ++ deleteCalls s } ∧
      DestroyGLTextures (DestroyGLTextures s)
        = { s with trace := s.trace ++ deleteCalls s ++ deleteCalls s } ∧
      (deleteCalls s).length = s.m_loadedTextures := by
  have h1 : DestroyGLTextures s = { s with trace := s.trace ++ deleteCalls s } := by
    simp [DestroyGLTextures, DestroyGLTextures_loop_eq, deleteCalls]
  refine ⟨h1, ?_, by simp [deleteCalls]⟩
  rw [h1]
  simp [DestroyGLTextures, DestroyGLTextures_loop_eq, deleteCalls]

/-! ## Single precision arithmetic -/

/-- Rounding to nearest, ties to even: 1 + 2 ^ (-24) is 1, and 1 + 3 * 2 ^ (-24) is
1 + 2 ^ (-22). -/
theorem Binary32_ties_to_even :
    (1 : Binary32) + .finite 1 (-24) = 1 ∧
      (1 : Binary32) + .finite 3 (-24) = .finite 4194305 (-22) := by
  constructor <;> decide

/-- Sums and products are rounded to 24 significant digits: 2 ^ 24 + 1 is 2 ^ 24, and the
square of 4097 (16785409) is 16785408, which is 131136 * 2 ^ 7 = 2049 * 2 ^ 13. -/
theorem Binary32_rounds_to_24_digits :
    (Binary32.finite 1 24 : Binary32) + 1 = .finite 1 24 ∧
      (4097 : Binary32) * 4097 = .finite 2049 13 := by
  constructor <;> decide

/-- Overflow and invalid operations: twice 2 ^ 127 is infinity, infinity minus infinity and
zero times infinity are NaN. -/
theorem Binary32_overflow_and_nan :
    (Binary32.finite 1 127 : Binary32) + .finite 1 127 = .inf false ∧
      (Binary32.inf false : Binary32) - .inf false = .nan ∧
      (0 : Binary32) * .inf false = .nan := by
  refine ⟨?_, ?_, ?_⟩ <;> decide

/-- Gradual underflow: half of the smallest positive float, 2 ^ (-149), is 0, and three
halves of it is 2 ^ (-148). -/
theorem Binary32_underflow :
    (Binary32.finite 1 (-149) : Binary32) * .finite 1 (-1) = 0 ∧
      (Binary32.finite 1 (-149) : Binary32) * .finite 3 (-1) = .finite 1 (-148) := by
  constructor <;> decide

/-! ## Transformations -/

section TransformTheorems

variable {β : Type} [CommRing β]

end TransformTheorems

/-- C9, as stated, fails: in single precision, with the values of `cosf` and `sinf` given in
`floatWorld`, the matrix that `SetTransformations` writes for scale (2, 1, 1), rotation
(0, 90, 0) and translation (0, 0, -5) maps the local point (1, 0, 0) to
(-6151831 * 2 ^ (-46), 0, -7), that is (-8.742278e-08, 0, -7); its z is -7, not -4. -/
theorem SetTransformations_example_point_not_minus_four :
    SetTransformations floatWorld (State.new Binary32 true) ⟨2, 1, 1⟩ 0 90 0 ⟨0, 0, -5⟩
        = (State.new Binary32 true).emit (.setMat4Value "model"
            (SetTransformations.modelView floatWorld ⟨2, 1, 1⟩ 0 90 0 ⟨0, 0, -5⟩)) ∧
      (glm.transformPoint (SetTransformations.modelView floatWorld ⟨2, 1, 1⟩ 0 90 0 ⟨0, 0, -5⟩)
          ⟨1, 0, 0⟩).x = .finite (-6151831) (-46) ∧
      (glm.transformPoint (SetTransformations.modelView floatWorld ⟨2, 1, 1⟩ 0 90 0 ⟨0, 0, -5⟩)
          ⟨1, 0, 0⟩).y = 0 ∧
      (glm.transformPoint (SetTransformations.modelView floatWorld ⟨2, 1, 1⟩ 0 90 0 ⟨0, 0, -5⟩)
          ⟨1, 0, 0⟩).z = -7 ∧
      (glm.transformPoint (SetTransformations.modelView floatWorld ⟨2, 1, 1⟩ 0 90 0 ⟨0, 0, -5⟩)
          ⟨1, 0, 0⟩).z ≠ -4 := by
  refine ⟨rfl, ?_, ?_, ?_, ?_⟩ <;> decide

/-- C9 (amended): in single precision, when the shader manager is not NULL, `cosf` and `sinf`
of `radians(0)` are 1 and 0, and those of `radians(90)` are `-6151831 * 2 ^ (-47)`
(-4.371139e-08) and 1, the matrix that `SetTransformations` writes for scale (2, 1, 1),
rotation (0, 90, 0) and translation (0, 0, -5) maps the local point (1, 0, 0) to
(-6151831 * 2 ^ (-46), 0, -7): x is twice the cosine (-8.742278e-08), y is 0 and z is -7. -/
theorem SetTransformations_example_point (W : World Binary32) (st : State Binary32)
    (hshader : st.m_pShaderManager = true)
    (hcos0 : W.cos (W.radians 0) = 1) (hsin0 : W.sin (W.radians 0) = 0)
    (hcos90 : W.cos (W.radians 90) = .finite (-6151831) (-47))
    (hsin90 : W.sin (W.radians 90) = 1) :
    ∃ M : Mat4 Binary32,
      SetTransformations W st ⟨2, 1, 1⟩ 0 90 0 ⟨0, 0, -5⟩ = st.emit (.setMat4Value "model" M) ∧
      (glm.transformPoint M ⟨1, 0, 0⟩).x = .finite (-6151831) (-46) ∧
      (glm.transformPoint M ⟨1, 0, 0⟩).y = 0 ∧
      (glm.transformPoint M ⟨1, 0, 0⟩).z = -7 := by
  refine ⟨SetTransformations.modelView W ⟨2, 1, 1⟩ 0 90 0 ⟨0, 0, -5⟩, ?_, ?_, ?_, ?_⟩
  · simp [SetTransformations, hshader, g_ModelName]
  all_goals
    simp only [SetTransformations.modelView, glm.rotate, hcos0, hsin0, hcos90, hsin90]
    decide

/-- C9 (amended), at a concrete input: `floatWorld` and a fresh state with a shader manager. -/
theorem SetTransformations_example_point_witness :
    (State.new Binary32 true).m_pShaderManager = true ∧
      floatWorld.cos (floatWorld.radians 0) = 1 ∧ floatWorld.sin (floatWorld.radians 0) = 0 ∧
      floatWorld.cos (floatWorld.radians 90) = .finite (-6151831) (-47) ∧
      floatWorld.sin (floatWorld.radians 90) = 1 ∧
      ∃ M : Mat4 Binary32,
        SetTransformations floatWorld (State.new Binary32 true) ⟨2, 1, 1⟩ 0 90 0 ⟨0, 0, -5⟩
          = (State.new Binary32 true).emit (.setMat4Value "model" M) ∧
        (glm.transformPoint M ⟨1, 0, 0⟩).x = .finite (-6151831) (-46) ∧
        (glm.transformPoint M ⟨1, 0, 0⟩).y = 0 ∧
        (glm.transformPoint M ⟨1, 0, 0⟩).z = -7 :=
  ⟨rfl, by decide, by decide, by decide, by decide,
    SetTransformations_example_point floatWorld (State.new Binary32 true) rfl
      (by decide) (by decide) (by decide) (by decide)⟩

/-! ## Rendering -/

section RenderTheorems

variable {α : Type}

/-- With a shader manager, `SetShaderMaterial` succeeds and appends `materialWrites`. -/
theorem SetShaderMaterial_of_shader (W : World α) (s : State α) (tag : String)
    (h : s.m_pShaderManager = true) :
    SetShaderMaterial W s tag = .ok { s with trace := s.trace ++ materialWrites W s tag } := by
  by_cases hne : s.m_objectMaterials = []
  · cases s with
    | mk p ids n ms tr =>
      simp only at hne
      subst hne
      simp [SetShaderMaterial, materialWrites]
  · have hlen : s.m_objectMaterials.length > 0 := List.length_pos.mpr hne
    have hfst := FindMaterial_fst_of_ne_nil s tag (W.uninitialized s.trace) hne
    simp [SetShaderMaterial, materialWrites, hlen, hfst, h, State.emit]

/-- The writes of a material are neither model-matrix writes nor draw calls. -/
theorem drawSchedule_materialWrites (W : World α) (s : State α) (tag : String) :
    drawSchedule (materialWrites W s tag) = [] := by
  unfold materialWrites
  split <;> simp [drawSchedule, Event.isModelWrite, Event.isDraw, g_ModelName]

/-- The writes of a material are not draw calls. -/
theorem drawCalls_materialWrites (W : World α) (s : State α) (tag : String) :
    drawCalls (materialWrites W s tag) = [] := by
  unfold materialWrites
  split <;> simp [drawCalls, Event.isDraw]

/-- The draw schedule of a concatenation. -/
theorem drawSchedule_append (a b : List (Event α)) :
    drawSchedule (a ++ b) = drawSchedule a ++ drawSchedule b := by
  simp [drawSchedule]

/-- The draw calls of a concatenation. -/
theorem drawCalls_append (a b : List (Event α)) :
    drawCalls (a ++ b) = drawCalls a ++ drawCalls b := by
  simp [drawCalls]

/-- The slot lookup does not read the trace. -/
theorem FindTextureSlot_mk (p : Bool) (ids : Nat → TEXTURE_INFO) (n : Nat)
    (ms : List (OBJECT_MATERIAL α)) (tr : List (Event α)) (tag : String) :
    FindTextureSlot ⟨p, ids, n, ms, tr⟩ tag = FindTextureSlot.loop ids tag n 0 := rfl

end RenderTheorems

/-- What `RenderScene` does with a shader manager. -/
theorem RenderScene_of_shader (W : World ℚ) (s : State ℚ) (h : s.m_pShaderManager = true) :
    ∃ evs : List (Event ℚ), RenderScene W s = .ok { s with trace := s.trace ++ evs } ∧
      drawSchedule evs = RenderScene.schedule W ∧
      drawCalls evs = [.DrawPlaneMesh, .DrawPlaneMesh, .DrawBoxMesh, .DrawBoxMesh, .DrawBoxMesh,
        .DrawBoxMesh, .DrawTaperedCylinderMesh, .DrawPrismMesh, .DrawPrismMesh,
        .DrawCylinderMesh] := by
  simp only [RenderScene, SetTransformations, SetShaderTexture, SetShaderColor, State.emit, h,
    if_true, bind, Except.bind, pure, Except.pure, SetShaderMaterial_of_shader,
    FindTextureSlot_mk, List.append_assoc]
  refine ⟨_, rfl, ?_, ?_⟩
  · simp only [drawSchedule_append, drawSchedule_materialWrites]
    simp [drawSchedule, Event.isModelWrite, Event.isDraw, g_ModelName, g_UseTextureName,
      g_TextureValueName, g_ColorValueName, RenderScene.schedule]
  · simp only [drawCalls_append, drawCalls_materialWrites]
    simp [drawCalls, Event.isDraw]

/-- The loop of `BindGLTextures` changes the trace only. -/
theorem BindGLTextures_loop_shader {α : Type} (n : Nat) :
    ∀ (s : State α) (i : Nat),
      (BindGLTextures.loop s n i).m_pShaderManager = s.m_pShaderManager := by
  induction n with
  | zero => intro s i; rfl
  | succ n ih => intro s i; rw [BindGLTextures.loop, ih]; rfl

/-- A call of `CreateGLTexture` that returns leaves the shader manager pointer as it was. -/
theorem CreateGLTexture_shader {α : Type} (W : World α) (s : State α) (filename tag : String)
    (r : Bool × State α) (h : CreateGLTexture W s filename tag = .ok r) :
    r.2.m_pShaderManager = s.m_pShaderManager := by
  cases hload : W.stbi_load filename with
  | none =>
    rw [CreateGLTexture_of_undecoded W s filename tag hload] at h
    injection h with h
    subst h
    rfl
  | some image =>
    by_cases hch : image.colorChannels = 3 ∨ image.colorChannels = 4
    · obtain ⟨evs, -, hrun⟩ := CreateGLTexture_of_supported W s filename tag image hload hch
      rw [hrun] at h
      split at h
      · injection h with h
        subst h
        rfl
      · exact Except.noConfusion h
    · obtain ⟨evs, -, hrun⟩ := CreateGLTexture_of_unsupported W s filename tag image hload
        (fun h3 => hch (Or.inl h3)) (fun h4 => hch (Or.inr h4))
      rw [hrun] at h
      injection h with h
      subst h
      rfl

/-- A run of `LoadSceneTextures` that returns leaves the shader manager pointer as it was. -/
theorem LoadSceneTextures_shader {α : Type} (W : World α) (s s1 : State α)
    (h : LoadSceneTextures W s = .ok s1) : s1.m_pShaderManager = s.m_pShaderManager := by
  unfold LoadSceneTextures at h
  simp only [bind, Except.bind, pure, Except.pure] at h
  split at h
  · exact Except.noConfusion h
  · rename_i r1 h1
    split at h
    · exact Except.noConfusion h
    · rename_i r2 h2
      split at h
      · exact Except.noConfusion h
      · rename_i r3 h3
        split at h
        · exact Except.noConfusion h
        · rename_i r4 h4
          split at h
          · exact Except.noConfusion h
          · rename_i r5 h5
            split at h
            · exact Except.noConfusion h
            · rename_i r6 h6
              injection h with h
              subst h
              rw [BindGLTextures, BindGLTextures_loop_shader,
                CreateGLTexture_shader W _ _ _ _ h6, CreateGLTexture_shader W _ _ _ _ h5,
                CreateGLTexture_shader W _ _ _ _ h4, CreateGLTexture_shader W _ _ _ _ h3,
                CreateGLTexture_shader W _ _ _ _ h2, CreateGLTexture_shader W _ _ _ _ h1]

/-- A run of `PrepareScene` that returns ends with a shader manager. -/
theorem PrepareScene_shader (W : World ℚ) (s0 s : State ℚ) (h : PrepareScene W s0 = .ok s) :
    s.m_pShaderManager = true := by
  unfold PrepareScene at h
  simp only [bind, Except.bind, pure, Except.pure] at h
  split at h
  · exact Except.noConfusion h
  · rename_i s1 h1
    split at h
    · exact Except.noConfusion h
    · rename_i s2 h2
      injection h with h
      subst h
      have hs1 : s1.m_pShaderManager = true := by
        unfold SetupSceneLights at h1
        split at h1
        · injection h1 with h1
          subst h1
          simpa [State.emit, DefineObjectMaterials] using ‹_›
        · exact Except.noConfusion h1
      simpa [State.emit, hs1] using LoadSceneTextures_shader W s1 s2 h2

/-- C10, as stated, fails: in `testWorld`, `PrepareScene` on a fresh state returns, and the
external calls that one call of `RenderScene` then adds to the trace hold 10 mesh draw calls,
not 11. -/
theorem RenderScene_ten_draw_calls_not_eleven :
    ∃ (s : State ℚ) (evs : List (Event ℚ)),
      PrepareScene testWorld (State.new ℚ true) = .ok s ∧
      RenderScene testWorld s = .ok { s with trace := s.trace ++ evs } ∧
      (drawCalls evs).length = 10 ∧ (drawCalls evs).length ≠ 11 := by
  obtain ⟨s, hprep⟩ : ∃ s : State ℚ, PrepareScene testWorld (State.new ℚ true) = .ok s :=
    ⟨_, rfl⟩
  obtain ⟨evs, hrun, -, hcalls⟩ :=
    RenderScene_of_shader testWorld s (PrepareScene_shader testWorld _ s hprep)
  have hlen : (drawCalls evs).length = 10 := by
    rw [hcalls]
    rfl
  exact ⟨s, evs, hprep, hrun, hlen, by rw [hlen]; decide⟩

/-- C10 (amended): after `PrepareScene`, one call of `RenderScene` returns, changes the trace
only, and issues exactly 10 mesh draw calls (plane, plane, box, box, box, box, tapered cylinder,
prism, prism, cylinder), each right after the write of its own model matrix, which
`SetTransformations` computes from the literal scale, rotation and position of the source. -/
theorem RenderScene_draw_schedule (W : World ℚ) (s0 s : State ℚ)
    (hprep : PrepareScene W s0 = .ok s) :
    ∃ evs : List (Event ℚ), RenderScene W s = .ok { s with trace := s.trace ++ evs } ∧
      drawSchedule evs = RenderScene.schedule W ∧
      drawCalls evs = [.DrawPlaneMesh, .DrawPlaneMesh, .DrawBoxMesh, .DrawBoxMesh, .DrawBoxMesh,
        .DrawBoxMesh, .DrawTaperedCylinderMesh, .DrawPrismMesh, .DrawPrismMesh,
        .DrawCylinderMesh] ∧
      (drawCalls evs).length = 10 := by
  obtain ⟨evs, hrun, hsched, hcalls⟩ :=
    RenderScene_of_shader W s (PrepareScene_shader W s0 s hprep)
  exact ⟨evs, hrun, hsched, hcalls, by rw [hcalls]; rfl⟩

/-- C10 (amended), at a concrete input: `PrepareScene` on a fresh state in `testWorld`. -/
theorem RenderScene_draw_schedule_witness :
    ∃ s : State ℚ, PrepareScene testWorld (State.new ℚ true) = .ok s ∧
      ∃ evs : List (Event ℚ),
        RenderScene testWorld s = .ok { s with trace := s.trace ++ evs } ∧
        drawSchedule evs = RenderScene.schedule testWorld ∧
        (drawCalls evs).length = 10 := by
  obtain ⟨s, hprep⟩ : ∃ s : State ℚ, PrepareScene testWorld (State.new ℚ true) = .ok s :=
    ⟨_, rfl⟩
  obtain ⟨evs, hrun, hsched, -, hlen⟩ :=
    RenderScene_draw_schedule testWorld (State.new ℚ true) s hprep
  exact ⟨s, hprep, evs, hrun, hsched, hlen⟩

/-! ## Lookups by tag -/

section LookupTheorems

/-- Absent, slot: if none of the `n` entries from `i` on has the tag, the loop returns -1. -/
theorem FindTextureSlot_loop_absent (ids : Nat → TEXTURE_INFO) (tag : String) (n : Nat) :
    ∀ i : Nat, (∀ j, i ≤ j → j < i + n → (ids j).tag ≠ tag) →
      FindTextureSlot.loop ids tag n i = -1 := by
  induction n with
  | zero => intro i _; rfl
  | succ n ih =>
    intro i h
    have hi : (ids i).tag ≠ tag := h i (le_refl _) (by omega)
    simp only [FindTextureSlot.loop, hi, if_false]
    exact ih (i + 1) (fun j h1 h2 => h j (by omega) (by omega))

/-- Absent, handle: if none of the `n` entries from `i` on has the tag, the loop returns -1. -/
theorem FindTextureID_loop_absent (ids : Nat → TEXTURE_INFO) (tag : String) (n : Nat) :
    ∀ i : Nat, (∀ j, i ≤ j → j < i + n → (ids j).tag ≠ tag) →
      FindTextureID.loop ids tag n i = -1 := by
  induction n with
  | zero => intro i _; rfl
  | succ n ih =>
    intro i h
    have hi : (ids i).tag ≠ tag := h i (le_refl _) (by omega)
    simp only [FindTextureID.loop, hi, if_false]
    exact ih (i + 1) (fun j h1 h2 => h j (by omega) (by omega))

/-- Among the first `n` entries either there is a first one with the tag, or none has it. -/
theorem first_tag_or_absent (ids : Nat → TEXTURE_INFO) (tag : String) (n : Nat) :
    (∃ i, i < n ∧ (ids i).tag = tag ∧ ∀ j, j < i → (ids j).tag ≠ tag) ∨
      ∀ i, i < n → (ids i).tag ≠ tag := by
  induction n with
  | zero => exact Or.inr (fun i hi => absurd hi (Nat.not_lt_zero i))
  | succ n ih =>
    rcases ih with ⟨i, hi, htag, hfirst⟩ | habs
    · exact Or.inl ⟨i, by omega, htag, hfirst⟩
    · by_cases hn : (ids n).tag = tag
      · exact Or.inl ⟨n, by omega, hn, habs⟩
      · refine Or.inr (fun i hi => ?_)
        rcases Nat.lt_succ_iff_lt_or_eq.mp hi with h | h
        · exact habs i h
        · rw [h]; exact hn

end LookupTheorems

/-- C11, as stated, fails for a texture name of 2^31 or more: on `hugeHandle`, whose slot 0
holds the name 4294967295 under the tag "t", `FindTextureSlot` returns 0 and `FindTextureID`
returns -1, which is not the name stored there (and is what it returns for an absent tag). -/
theorem FindTextureID_huge_handle_reads_minus_one :
    FindTextureSlot hugeHandle "t" = 0 ∧
      (hugeHandle.m_textureIDs 0).ID = 4294967295 ∧
      FindTextureID hugeHandle "t" = -1 ∧
      FindTextureID hugeHandle "t" ≠ ((hugeHandle.m_textureIDs 0).ID : Int) ∧
      FindTextureID hugeHandle "absent" = -1 := by
  refine ⟨?_, rfl, ?_, ?_, ?_⟩ <;>
    simp [FindTextureSlot, FindTextureSlot.loop, FindTextureID, FindTextureID.loop,
      hugeHandle, GLuint_to_int]

/-- C11 (amended): for every registry state and tag, either some registered entry has the tag,
and then `FindTextureSlot` returns the smallest index below the count whose entry has exactly
that tag and `FindTextureID` returns the name stored at that index, converted to `int` (the
name itself when it is below 2^31); or no registered entry has the tag, and then both return
-1. `FindTextureSlot` returns -1 if and only if no registered entry has the tag. -/
theorem FindTexture_first_match {α : Type} (s : State α) (tag : String) :
    ((∃ i, i < s.m_loadedTextures ∧ (s.m_textureIDs i).tag = tag ∧
          (∀ j, j < i → (s.m_textureIDs j).tag ≠ tag) ∧
          FindTextureSlot s tag = (i : Int) ∧
          FindTextureID s tag = GLuint_to_int (s.m_textureIDs i).ID ∧
          ((s.m_textureIDs i).ID < 2 ^ 31 →
            FindTextureID s tag = ((s.m_textureIDs i).ID : Int))) ∨
        ((∀ i, i < s.m_loadedTextures → (s.m_textureIDs i).tag ≠ tag) ∧
          FindTextureSlot s tag = -1 ∧ FindTextureID s tag = -1)) ∧
      (FindTextureSlot s tag = -1 ↔
        ∀ i, i < s.m_loadedTextures → (s.m_textureIDs i).tag ≠ tag) := by
  rcases first_tag_or_absent s.m_textureIDs tag s.m_loadedTextures with
    ⟨i, hi, htag, hfirst⟩ | habs
  · have hbefore : ∀ j, 0 ≤ j → j < 0 + i → (s.m_textureIDs j).tag ≠ tag :=
      fun j _ hj => hfirst j (by omega)
    have hat : (s.m_textureIDs (0 + i)).tag = tag := by rw [Nat.zero_add]; exact htag
    have hslot := FindTextureSlot_loop_first s.m_textureIDs tag i s.m_loadedTextures 0 hi
      hbefore hat
    have hid := FindTextureID_loop_first s.m_textureIDs tag i s.m_loadedTextures 0 hi
      hbefore hat
    rw [Nat.zero_add] at hslot hid
    refine ⟨Or.inl ⟨i, hi, htag, hfirst, hslot, hid, fun hlt => ?_⟩, ?_⟩
    · rw [← GLuint_to_int_of_lt _ hlt]; exact hid
    · constructor
      · intro h
        have h2 : FindTextureSlot s tag = (i : Int) := hslot
        rw [h] at h2
        omega
      · intro h
        exact absurd htag (h i hi)
  · have hall : ∀ j, 0 ≤ j → j < 0 + s.m_loadedTextures → (s.m_textureIDs j).tag ≠ tag :=
      fun j _ hj => habs j (by omega)
    have hslot := FindTextureSlot_loop_absent s.m_textureIDs tag s.m_loadedTextures 0 hall
    have hid := FindTextureID_loop_absent s.m_textureIDs tag s.m_loadedTextures 0 hall
    exact ⟨Or.inr ⟨habs, hslot, hid⟩, ⟨fun _ => habs, fun _ => hslot⟩⟩

section FirstMaterial

variable {α : Type}

/-- First match: when the materials in front of `m` do not have the tag and `m` has it, the
loop copies the five fields of `m`, whatever comes after `m`. -/
theorem FindMaterial_loop_first (tag : String) (material m : OBJECT_MATERIAL α)
    (before after : List (OBJECT_MATERIAL α)) (hbefore : ∀ x ∈ before, x.tag ≠ tag)
    (hm : m.tag = tag) :
    FindMaterial.loop tag material (before ++ m :: after) =
      { material with
        ambientColor := m.ambientColor
        ambientStrength := m.ambientStrength
        diffuseColor := m.diffuseColor
        specularColor := m.specularColor
        shininess := m.shininess } := by
  induction before with
  | nil => simp [FindMaterial.loop, hm]
  | cons x rest ih =>
    have hx : x.tag ≠ tag := hbefore x (List.mem_cons_self _ _)
    have hrest : ∀ y ∈ rest, y.tag ≠ tag := fun y hy => hbefore y (List.mem_cons_of_mem _ hy)
    simp only [List.cons_append, FindMaterial.loop, hx, if_false]
    exact ih hrest

/-- When the first material with the tag is `m`, the writes of `SetShaderMaterial` are the
five fields of `m`. -/
theorem materialWrites_of_first (W : World α) (s : State α) (tag : String)
    (m : OBJECT_MATERIAL α) (before after : List (OBJECT_MATERIAL α))
    (hsplit : s.m_objectMaterials = before ++ m :: after)
    (hbefore : ∀ x ∈ before, x.tag ≠ tag) (hm : m.tag = tag) :
    materialWrites W s tag = materialUniforms m := by
  have hlen : s.m_objectMaterials.length > 0 := by rw [hsplit]; simp
  have hne : s.m_objectMaterials.length ≠ 0 := by omega
  have hfind : (FindMaterial s tag (W.uninitialized s.trace)).2 =
      { W.uninitialized s.trace with
        ambientColor := m.ambientColor
        ambientStrength := m.ambientStrength
        diffuseColor := m.diffuseColor
        specularColor := m.specularColor
        shininess := m.shininess } := by
    simp only [FindMaterial, hne, if_false]
    rw [hsplit]
    exact FindMaterial_loop_first tag _ m before after hbefore hm
  simp only [materialWrites, hlen, if_true, hfind, materialUniforms]

end FirstMaterial

/-- C12: when the shader manager is not NULL and the material table holds a material `m` with
the tag in front of which no material has the tag, `SetShaderMaterial` returns and its only
external calls are the five uniform writes material.ambientColor, material.ambientStrength,
material.diffuseColor, material.specularColor and material.shininess with the fields of `m`,
whatever materials (with the same tag or not) come after `m`. -/
theorem SetShaderMaterial_writes_first_match {α : Type} (W : World α) (s : State α)
    (tag : String) (m : OBJECT_MATERIAL α) (before after : List (OBJECT_MATERIAL α))
    (hshader : s.m_pShaderManager = true)
    (hsplit : s.m_objectMaterials = before ++ m :: after)
    (hbefore : ∀ x ∈ before, x.tag ≠ tag) (hm : m.tag = tag) :
    SetShaderMaterial W s tag =
      .ok { s with
        trace := s.trace ++
          [.setVec3Value "material.ambientColor" m.ambientColor,
            .setFloatValue "material.ambientStrength" m.ambientStrength,
            .setVec3Value "material.diffuseColor" m.diffuseColor,
            .setVec3Value "material.specularColor" m.specularColor,
            .setFloatValue "material.shininess" m.shininess] } := by
  rw [SetShaderMaterial_of_shader W s tag hshader,
    materialWrites_of_first W s tag m before after hsplit hbefore hm]
  rfl

/-- C12, at a concrete input: on `twoMaterials`, where two materials have the tag "dup", the
fields of the first one (all 1) are written. -/
theorem SetShaderMaterial_writes_first_match_witness :
    twoMaterials.m_pShaderManager = true ∧
      (∀ m ∈ twoMaterials.m_objectMaterials, m.tag = "dup") ∧
      SetShaderMaterial testWorld twoMaterials "dup" =
        .ok { twoMaterials with
          trace :=
            [.setVec3Value "material.ambientColor" ⟨1, 1, 1⟩,
              .setFloatValue "material.ambientStrength" 1,
              .setVec3Value "material.diffuseColor" ⟨1, 1, 1⟩,
              .setVec3Value "material.specularColor" ⟨1, 1, 1⟩,
              .setFloatValue "material.shininess" 1] } := by
  refine ⟨rfl, ?_, ?_⟩
  · intro m hm
    simp [twoMaterials] at hm
    rcases hm with rfl | rfl <;> rfl
  · exact SetShaderMaterial_writes_first_match testWorld twoMaterials "dup"
      { ambientColor := ⟨1, 1, 1⟩, ambientStrength := 1, diffuseColor := ⟨1, 1, 1⟩,
        specularColor := ⟨1, 1, 1⟩, shininess := 1, tag := "dup" } []
      [{ ambientColor := ⟨2, 2, 2⟩, ambientStrength := 2, diffuseColor := ⟨2, 2, 2⟩,
         specularColor := ⟨2, 2, 2⟩, shininess := 2, tag := "dup" }]
      rfl rfl (fun x hx => absurd hx (List.not_mem_nil x)) rfl

/-! ## The scene after preparation -/

section SceneTheorems

variable {α : Type}

/-- A successful load into a registry of `c` entries with room left. -/
theorem CreateGLTexture_step (W : World α) (s : State α) (filename tag : String) (c : Nat)
    (hs : supported W filename = true) (hc : s.m_loadedTextures = c)
    (hroom : c < textureSlots) :
    ∃ s1 : State α, CreateGLTexture W s filename tag = .ok (true, s1) ∧
      s1.m_pShaderManager = s.m_pShaderManager ∧
      s1.m_objectMaterials = s.m_objectMaterials ∧
      s1.m_loadedTextures = c + 1 ∧
      s1.m_textureIDs =
        Function.update s.m_textureIDs c ⟨CreateGLTexture.textureID W s filename, tag⟩ := by
  obtain ⟨image, hload, hch⟩ : ∃ image, W.stbi_load filename = some image ∧
      (image.colorChannels = 3 ∨ image.colorChannels = 4) := by
    unfold supported at hs
    cases hload : W.stbi_load filename with
    | none => rw [hload] at hs; exact Bool.noConfusion hs
    | some image =>
      rw [hload] at hs
      exact ⟨image, rfl, by simpa using hs⟩
  obtain ⟨evs, -, hrun⟩ := CreateGLTexture_of_supported W s filename tag image hload hch
  rw [if_pos (by rw [hc]; exact hroom)] at hrun
  exact ⟨_, hrun, rfl, rfl, by simp [hc], by simp [hc]⟩

/-- The loop of `BindGLTextures` changes the trace only. -/
theorem BindGLTextures_loop_registry (n : Nat) :
    ∀ (s : State α) (i : Nat),
      (BindGLTextures.loop s n i).m_textureIDs = s.m_textureIDs ∧
      (BindGLTextures.loop s n i).m_loadedTextures = s.m_loadedTextures ∧
      (BindGLTextures.loop s n i).m_objectMaterials = s.m_objectMaterials := by
  induction n with
  | zero => intro s i; exact ⟨rfl, rfl, rfl⟩
  | succ n ih =>
    intro s i
    rw [BindGLTextures.loop]
    obtain ⟨h1, h2, h3⟩ := ih
      ((s.emit (.glActiveTexture i)).emit (.glBindTexture (s.m_textureIDs i).ID)) (i + 1)
    exact ⟨h1, h2, h3⟩

/-- When the six loads of `LoadSceneTextures` succeed on an empty registry, it returns with six
registered textures whose tags are, by slot, static, xbox, monster, rusticwood, wall and
stainless. -/
theorem LoadSceneTextures_of_supported (W : World α) (s : State α)
    (hempty : s.m_loadedTextures = 0) (hfiles : ∀ f ∈ LoadSceneTextures.files, supported W f = true) :
    ∃ s1 : State α, LoadSceneTextures W s = .ok s1 ∧
      s1.m_objectMaterials = s.m_objectMaterials ∧
      s1.m_loadedTextures = 6 ∧
      (s1.m_textureIDs 0).tag = "static" ∧ (s1.m_textureIDs 1).tag = "xbox" ∧
      (s1.m_textureIDs 2).tag = "monster" ∧ (s1.m_textureIDs 3).tag = "rusticwood" ∧
      (s1.m_textureIDs 4).tag = "wall" ∧ (s1.m_textureIDs 5).tag = "stainless" := by
  have hf : ∀ f, f ∈ LoadSceneTextures.files → supported W f = true := hfiles
  obtain ⟨a, ha, -, hma, hca, hia⟩ := CreateGLTexture_step W s
    "../../Utilities/textures/static3.jpg" "static" 0
    (hf _ (by simp [LoadSceneTextures.files])) hempty (by decide)
  obtain ⟨b, hb, -, hmb, hcb, hib⟩ := CreateGLTexture_step W a
    "../../Utilities/textures/blackxbox4.jpg" "xbox" 1
    (hf _ (by simp [LoadSceneTextures.files])) hca (by decide)
  obtain ⟨c, hc, -, hmc, hcc, hic⟩ := CreateGLTexture_step W b
    "../../Utilities/textures/monster2.jpg" "monster" 2
    (hf _ (by simp [LoadSceneTextures.files])) hcb (by decide)
  obtain ⟨d, hd, -, hmd, hcd, hid⟩ := CreateGLTexture_step W c
    "../../Utilities/textures/rusticwood.jpg" "rusticwood" 3
    (hf _ (by simp [LoadSceneTextures.files])) hcc (by decide)
  obtain ⟨e, he, -, hme, hce, hie⟩ := CreateGLTexture_step W d
    "../../Utilities/textures/blackwall.jpg" "wall" 4
    (hf _ (by simp [LoadSceneTextures.files])) hcd (by decide)
  obtain ⟨g, hg, -, hmg, hcg, hig⟩ := CreateGLTexture_step W e
    "../../Utilities/textures/stainless.jpg" "stainless" 5
    (hf _ (by simp [LoadSceneTextures.files])) hce (by decide)
  obtain ⟨hbi, hbc, hbm⟩ := BindGLTextures_loop_registry g.m_loadedTextures g 0
  refine ⟨BindGLTextures g, ?_, ?_, ?_, ?_, ?_, ?_, ?_, ?_, ?_⟩
  · simp only [LoadSceneTextures, bind, Except.bind, pure, Except.pure, ha, hb, hc, hd, he, hg]
  · rw [BindGLTextures, hbm, hmg, hme, hmd, hmc, hmb, hma]
  · rw [BindGLTextures, hbc, hcg]
  all_goals
    rw [BindGLTextures, hbi, hig, hie, hid, hic, hib, hia]
    simp [Function.update]

/-- A run of `SetupSceneLights` that returns changes the trace only. -/
theorem SetupSceneLights_registry (s s1 : State ℚ) (h : SetupSceneLights s = .ok s1) :
    s1.m_textureIDs = s.m_textureIDs ∧ s1.m_loadedTextures = s.m_loadedTextures ∧
      s1.m_objectMaterials = s.m_objectMaterials := by
  unfold SetupSceneLights at h
  split at h
  · injection h with h
    subst h
    simp [State.emit]
  · exact Except.noConfusion h

/-- After `PrepareScene` on an empty registry with six successful loads, the registry holds
the six scene textures and the material table ends with cement, glass and clay. -/
theorem PrepareScene_registry (W : World ℚ) (s0 s : State ℚ)
    (hempty : s0.m_loadedTextures = 0)
    (hfiles : ∀ f ∈ LoadSceneTextures.files, supported W f = true)
    (hprep : PrepareScene W s0 = .ok s) :
    s.m_objectMaterials = (DefineObjectMaterials s0).m_objectMaterials ∧
      s.m_loadedTextures = 6 ∧
      (s.m_textureIDs 0).tag = "static" ∧ (s.m_textureIDs 1).tag = "xbox" ∧
      (s.m_textureIDs 2).tag = "monster" ∧ (s.m_textureIDs 3).tag = "rusticwood" ∧
      (s.m_textureIDs 4).tag = "wall" ∧ (s.m_textureIDs 5).tag = "stainless" := by
  unfold PrepareScene at hprep
  simp only [bind, Except.bind, pure, Except.pure] at hprep
  split at hprep
  · exact Except.noConfusion hprep
  · rename_i s1 h1
    obtain ⟨hi1, hc1, hm1⟩ := SetupSceneLights_registry _ s1 h1
    have hempty1 : s1.m_loadedTextures = 0 := by rw [hc1]; exact hempty
    obtain ⟨s2, h2, hm2, hc2, t0, t1, t2, t3, t4, t5⟩ :=
      LoadSceneTextures_of_supported W s1 hempty1 hfiles
    rw [h2] at hprep
    injection hprep with hprep
    subst hprep
    exact ⟨by simpa [State.emit, hm2] using hm1, hc2, t0, t1, t2, t3, t4, t5⟩

/-- The slots of the six scene textures. -/
theorem FindTextureSlot_scene (s : State α) (hc : s.m_loadedTextures = 6)
    (t0 : (s.m_textureIDs 0).tag = "static") (t1 : (s.m_textureIDs 1).tag = "xbox")
    (t2 : (s.m_textureIDs 2).tag = "monster") (t3 : (s.m_textureIDs 3).tag = "rusticwood")
    (t4 : (s.m_textureIDs 4).tag = "wall") (t5 : (s.m_textureIDs 5).tag = "stainless") :
    RenderScene.textureTags.map (FindTextureSlot s) = [3, 4, 0, 5, 1, 4, 4, 4, 2] := by
  simp [RenderScene.textureTags, FindTextureSlot, FindTextureSlot.loop, hc, t0, t1, t2, t3, t4,
    t5]

/-- When the table has a first material `m` with the tag, the loop copies its five fields. -/
theorem FindMaterial_loop_firstMaterial (tag : String) (material m : OBJECT_MATERIAL α)
    (ms : List (OBJECT_MATERIAL α)) (h : firstMaterial ms tag = some m) :
    FindMaterial.loop tag material ms =
      { material with
        ambientColor := m.ambientColor
        ambientStrength := m.ambientStrength
        diffuseColor := m.diffuseColor
        specularColor := m.specularColor
        shininess := m.shininess } := by
  induction ms with
  | nil => simp [firstMaterial] at h
  | cons x rest ih =>
    by_cases hx : x.tag = tag
    · have hxm : x = m := by
        simpa [firstMaterial, List.find?, hx] using h
      subst hxm
      simp [FindMaterial.loop, hx]
    · have hb : (x.tag == tag) = false := by simpa using hx
      have hrest : firstMaterial rest tag = some m := by
        simpa only [firstMaterial, List.find?, hb] using h
      simp only [FindMaterial.loop, hx, if_false]
      exact ih hrest

/-- When the table has a first material `m` with the tag, the writes of `SetShaderMaterial`
are the five fields of `m`, whatever the rest of the state. -/
theorem materialWrites_mk_of_firstMaterial (W : World α) (ms : List (OBJECT_MATERIAL α))
    (tag : String) (m : OBJECT_MATERIAL α) (h : firstMaterial ms tag = some m) (p : Bool)
    (ids : Nat → TEXTURE_INFO) (n : Nat) (tr : List (Event α)) :
    materialWrites W ⟨p, ids, n, ms, tr⟩ tag = materialUniforms m := by
  have hne : ms ≠ [] := by
    intro h0
    rw [h0] at h
    simp [firstMaterial] at h
  have hlen : ms.length > 0 := List.length_pos.mpr hne
  have hlen0 : ms.length ≠ 0 := by omega
  simp only [materialWrites, FindMaterial, hlen, hlen0, if_true, if_false,
    FindMaterial_loop_firstMaterial tag _ m ms h, materialUniforms]

/-- A table that holds a material with the tag has a first one. -/
theorem firstMaterial_of_mem (ms : List (OBJECT_MATERIAL α)) (tag : String)
    (h : ∃ x ∈ ms, x.tag = tag) :
    ∃ m, firstMaterial ms tag = some m ∧ m ∈ ms ∧ m.tag = tag := by
  induction ms with
  | nil =>
    obtain ⟨x, hx, -⟩ := h
    exact absurd hx (List.not_mem_nil x)
  | cons y rest ih =>
    by_cases hy : y.tag = tag
    · exact ⟨y, by simp [firstMaterial, List.find?, hy], List.mem_cons_self _ _, hy⟩
    · obtain ⟨x, hx, hxt⟩ := h
      have hxr : x ∈ rest := by
        rcases List.mem_cons.mp hx with rfl | hr
        · exact absurd hxt hy
        · exact hr
      obtain ⟨m, hm, hmem, hmt⟩ := ih ⟨x, hxr, hxt⟩
      have hb : (y.tag == tag) = false := by simpa using hy
      exact ⟨m, by simpa only [firstMaterial, List.find?, hb] using hm,
        List.mem_cons_of_mem _ hmem, hmt⟩

/-- The sampler writes of a concatenation. -/
theorem samplerWrites_append (a b : List (Event α)) :
    samplerWrites (a ++ b) = samplerWrites a ++ samplerWrites b := by
  simp [samplerWrites]

/-- The material writes of a concatenation. -/
theorem materialPart_append (a b : List (Event α)) :
    materialPart (a ++ b) = materialPart a ++ materialPart b := by
  simp [materialPart]

/-- The five writes of a material do not touch the sampler. -/
theorem samplerWrites_materialUniforms (m : OBJECT_MATERIAL α) :
    samplerWrites (materialUniforms m) = [] := by
  simp [samplerWrites, materialUniforms]

/-- The five writes of a material are material writes. -/
theorem materialPart_materialUniforms (m : OBJECT_MATERIAL α) :
    materialPart (materialUniforms m) = materialUniforms m := by
  simp [materialPart, materialUniforms, Event.isMaterialWrite]

end SceneTheorems

/-- What `RenderScene` writes to the sampler and to the material uniforms when the shader
manager is not NULL and the table has materials `clay`, `cement` and `glass` as the first
ones with their tags. -/
theorem RenderScene_lookups (W : World ℚ) (s : State ℚ) (clay cement glass : OBJECT_MATERIAL ℚ)
    (h : s.m_pShaderManager = true)
    (hclay : firstMaterial s.m_objectMaterials "clay" = some clay)
    (hcement : firstMaterial s.m_objectMaterials "cement" = some cement)
    (hglass : firstMaterial s.m_objectMaterials "glass" = some glass) :
    ∃ evs : List (Event ℚ), RenderScene W s = .ok { s with trace := s.trace ++ evs } ∧
      samplerWrites evs = RenderScene.textureTags.map (FindTextureSlot s) ∧
      materialPart evs = RenderScene.materialTags.flatMap (definedWrites s.m_objectMaterials) := by
  simp only [RenderScene, SetTransformations, SetShaderTexture, SetShaderColor, State.emit, h,
    if_true, bind, Except.bind, pure, Except.pure, SetShaderMaterial_of_shader,
    FindTextureSlot_mk, List.append_assoc,
    materialWrites_mk_of_firstMaterial W s.m_objectMaterials "clay" clay hclay,
    materialWrites_mk_of_firstMaterial W s.m_objectMaterials "cement" cement hcement,
    materialWrites_mk_of_firstMaterial W s.m_objectMaterials "glass" glass hglass]
  refine ⟨_, rfl, ?_, ?_⟩
  · simp only [samplerWrites_append, samplerWrites_materialUniforms]
    simp [samplerWrites, g_ModelName, g_UseTextureName, g_TextureValueName, g_ColorValueName,
      RenderScene.textureTags, FindTextureSlot]
  · simp only [materialPart_append, materialPart_materialUniforms]
    simp [materialPart, Event.isMaterialWrite, RenderScene.materialTags, definedWrites, hclay,
      hcement, hglass, g_ModelName, g_UseTextureName, g_TextureValueName, g_ColorValueName]

/-- The three tags that `DefineObjectMaterials` defines are in the table afterwards. -/
theorem DefineObjectMaterials_tags (s0 : State ℚ) (tag : String)
    (h : tag = "cement" ∨ tag = "glass" ∨ tag = "clay") :
    ∃ x ∈ (DefineObjectMaterials s0).m_objectMaterials, x.tag = tag := by
  rcases h with rfl | rfl | rfl
  · exact ⟨_, by simp [DefineObjectMaterials]; exact Or.inr (Or.inl rfl), rfl⟩
  · exact ⟨_, by simp [DefineObjectMaterials]; exact Or.inr (Or.inr (Or.inl rfl)), rfl⟩
  · exact ⟨_, by simp [DefineObjectMaterials]; exact Or.inr (Or.inr (Or.inr rfl)), rfl⟩

/-- C13: after `PrepareScene` on a state whose registry is empty, in a world where the six
image files of `LoadSceneTextures` decode with three or four channels, every texture tag that
`RenderScene` uses has a slot between 0 and 5 and every material tag that it uses has a
material in the table; `RenderScene` then returns, the values it writes to the sampler are the
slots of its texture tags, 3, 4, 0, 5, 1, 4, 4, 4, 2 (never -1), and the material uniforms it
writes are, call after call, the five fields of the first material with the tag asked for. -/
theorem RenderScene_tags_resolve (W : World ℚ) (s0 s : State ℚ)
    (hempty : s0.m_loadedTextures = 0)
    (hfiles : ∀ f ∈ LoadSceneTextures.files, supported W f = true)
    (hprep : PrepareScene W s0 = .ok s) :
    (∀ tag ∈ RenderScene.textureTags,
        0 ≤ FindTextureSlot s tag ∧ FindTextureSlot s tag ≤ 5) ∧
      (∀ tag ∈ RenderScene.materialTags,
        ∃ m, firstMaterial s.m_objectMaterials tag = some m ∧ m ∈ s.m_objectMaterials ∧
          m.tag = tag) ∧
      ∃ evs : List (Event ℚ), RenderScene W s = .ok { s with trace := s.trace ++ evs } ∧
        samplerWrites evs = RenderScene.textureTags.map (FindTextureSlot s) ∧
        samplerWrites evs = [3, 4, 0, 5, 1, 4, 4, 4, 2] ∧
        materialPart evs
          = RenderScene.materialTags.flatMap (definedWrites s.m_objectMaterials) := by
  obtain ⟨hm, hc, t0, t1, t2, t3, t4, t5⟩ := PrepareScene_registry W s0 s hempty hfiles hprep
  have hslots := FindTextureSlot_scene s hc t0 t1 t2 t3 t4 t5
  have hfound : ∀ tag, tag = "cement" ∨ tag = "glass" ∨ tag = "clay" →
      ∃ m, firstMaterial s.m_objectMaterials tag = some m ∧ m ∈ s.m_objectMaterials ∧
        m.tag = tag := by
    intro tag htag
    apply firstMaterial_of_mem
    rw [hm]
    exact DefineObjectMaterials_tags s0 tag htag
  obtain ⟨clay, hclay, -, -⟩ := hfound "clay" (Or.inr (Or.inr rfl))
  obtain ⟨cement, hcement, -, -⟩ := hfound "cement" (Or.inl rfl)
  obtain ⟨glass, hglass, -, -⟩ := hfound "glass" (Or.inr (Or.inl rfl))
  obtain ⟨evs, hrun, hsamp, hmat⟩ := RenderScene_lookups W s clay cement glass
    (PrepareScene_shader W s0 s hprep) hclay hcement hglass
  refine ⟨?_, ?_, evs, hrun, hsamp, by rw [hsamp, hslots], hmat⟩
  · intro tag htag
    have hmem : FindTextureSlot s tag ∈ RenderScene.textureTags.map (FindTextureSlot s) :=
      List.mem_map_of_mem _ htag
    rw [hslots] at hmem
    simp only [List.mem_cons, List.mem_singleton, List.not_mem_nil, or_false] at hmem
    omega
  · intro tag htag
    apply hfound
    simp only [RenderScene.materialTags, List.mem_cons, List.mem_singleton, List.not_mem_nil,
      or_false] at htag
    rcases htag with h | h | h | h | h | h
    · exact Or.inr (Or.inr h)
    · exact Or.inl h
    · exact Or.inl h
    · exact Or.inl h
    · exact Or.inl h
    · exact Or.inr (Or.inl h)

/-- C13, at a concrete input: a fresh state in `testWorld`, where the six files decode to
three-channel images. -/
theorem RenderScene_tags_resolve_witness :
    (State.new ℚ true).m_loadedTextures = 0 ∧
      (∀ f ∈ LoadSceneTextures.files, supported testWorld f = true) ∧
      ∃ s : State ℚ, PrepareScene testWorld (State.new ℚ true) = .ok s ∧
        ∃ evs : List (Event ℚ),
          RenderScene testWorld s = .ok { s with trace := s.trace ++ evs } ∧
          samplerWrites evs = [3, 4, 0, 5, 1, 4, 4, 4, 2] := by
  have hfiles : ∀ f ∈ LoadSceneTextures.files, supported testWorld f = true := by
    intro f hf
    simp only [LoadSceneTextures.files, List.mem_cons, List.mem_singleton, List.not_mem_nil,
      or_false] at hf
    rcases hf with rfl | rfl | rfl | rfl | rfl | rfl <;> simp [supported, testWorld]
  obtain ⟨s, hprep⟩ : ∃ s : State ℚ, PrepareScene testWorld (State.new ℚ true) = .ok s :=
    ⟨_, rfl⟩
  obtain ⟨-, -, evs, hrun, -, hsamp, -⟩ :=
    RenderScene_tags_resolve testWorld (State.new ℚ true) s rfl hfiles hprep
  exact ⟨rfl, hfiles, s, hprep, evs, hrun, hsamp⟩

end SceneManager
